import Mathlib

/-!
# newrelic-cli: install pipeline and commands

A shallow embedding of `internal/install/execution/success_link_generator.go`,
`internal/install/command.go`, `internal/install/scenario_builder.go`, the
NerdStorage document, events post, entity search and profile list commands,
and of the collaborators they use.  Go strings are embedded as Lean strings
(sequences of Unicode code points), Go `int` as `Int`, a nil-able pointer as
`Option`, and a Go function that can panic returns `Option`, `none` standing
for the panic.  A command is embedded as a function from its flag variables
and the answers of the client to a record of what the run does: the calls it
makes and how it ends.
-/

namespace NewRelicCLI

/-! ## Go library helpers -/

/-- Upper-case form of an ASCII letter, every other character unchanged. -/
def asciiUpper (c : Char) : Char :=
  if 'a'.toNat ≤ c.toNat ∧ c.toNat ≤ 'z'.toNat then Char.ofNat (c.toNat - 32) else c

/-- Canonical representative of the case-folding orbit of a rune, as
`unicode.SimpleFold` walks it: the two cases of an ASCII letter form one orbit,
the Kelvin sign U+212A belongs to the orbit of `K` and the long s U+017F to
the orbit of `S`.  These are all the orbits that hold an ASCII character, so
the table decides every comparison in which one side is an ASCII string; a
rune outside these orbits stands for itself. -/
def foldRune (c : Char) : Char :=
  if c.toNat = 0x212A then 'K'
  else if c.toNat = 0x017F then 'S'
  else asciiUpper c

/-- Go's `strings.EqualFold` on rune sequences: same number of runes and the
runes at each position lie in the same folding orbit. -/
def equalFoldRunes : List Char → List Char → Bool
  | [], [] => true
  | a :: s, b :: t => (foldRune a == foldRune b) && equalFoldRunes s t
  | _, _ => false

/-- Go's `strings.EqualFold`. -/
def equalFold (s t : String) : Bool :=
  equalFoldRunes s.data t.data

/-- UTF-8 bytes of one code point. -/
def utf8Bytes (c : Char) : List Nat :=
  let n := c.toNat
  if n < 0x80 then [n]
  else if n < 0x800 then [0xC0 + n / 64, 0x80 + n % 64]
  else if n < 0x10000 then [0xE0 + n / 4096, 0x80 + n / 64 % 64, 0x80 + n % 64]
  else [0xF0 + n / 262144, 0x80 + n / 4096 % 64, 0x80 + n / 64 % 64, 0x80 + n % 64]

/-- The bytes of a Go string. -/
def stringBytes (s : String) : List Nat :=
  s.data.foldr (fun c acc => utf8Bytes c ++ acc) []

/-- The standard base64 alphabet (RFC 4648). -/
def base64Alphabet : List Char :=
  "ABCDEFGHIJKLMNOPQRSTUVWXYZabcdefghijklmnopqrstuvwxyz0123456789+/".data

/-- The base64 digit of a 6-bit value. -/
def base64Digit (n : Nat) : Char :=
  base64Alphabet.getD n '='

/-- Standard padded base64 of a byte sequence, three bytes at a time. -/
def base64Chars : List Nat → List Char
  | [] => []
  | [a] => [base64Digit (a / 4), base64Digit (a % 4 * 16), '=', '=']
  | [a, b] =>
      [base64Digit (a / 4), base64Digit (a % 4 * 16 + b / 16), base64Digit (b % 16 * 4), '=']
  | a :: b :: c :: rest =>
      base64Digit (a / 4) :: base64Digit (a % 4 * 16 + b / 16)
        :: base64Digit (b % 16 * 4 + c / 64) :: base64Digit (c % 64) :: base64Chars rest

/-- Modelled from the spec: `utils.Base64Encode`, whose source file is not part
of the sources; the spec calls its result the "base64-encoded filter", which is
the standard padded base64 of the string's bytes. -/
def Base64Encode (s : String) : String :=
  String.mk (base64Chars (stringBytes s))

/-- Go's `%d` verb on an `int`. -/
def formatInt (n : Int) : String :=
  match n with
  | Int.ofNat m => Nat.repr m
  | Int.negSucc m => "-" ++ Nat.repr (m + 1)

/-! ## Credentials and regions -/

/-- The fields of `credentials.Profile` that the link generator and the events
command read. -/
structure Profile where
  Region : String
  AccountID : Int
  InsightsInsertKey : String := ""
  deriving DecidableEq, Repr

/-- Value of `region.Staging.String()` in the client library. -/
def regionStaging : String := "Staging"

/-- Value of `region.EU.String()` in the client library. -/
def regionEU : String := "EU"

/-! ## Install status -/

/-- The lifecycle values of `RecipeStatusTypes`. -/
inductive RecipeStatusType where
  | AVAILABLE
  | RECOMMENDED
  | SELECTED
  | INSTALLING
  | INSTALLED
  | FAILED
  | SKIPPED
  | CANCELED
  deriving DecidableEq, Repr

/-- One entry of the status map: a recipe, its current status and the entity
GUID reported for it (empty when none was). -/
structure RecipeStatus where
  Name : String
  Status : RecipeStatusType
  EntityGUID : String
  deriving DecidableEq, Repr

/-- The success-link configuration: link-type selector (the field `Type` of the
source) and filter string. -/
structure SuccessLinkConfig where
  LinkType : String
  Filter : String
  deriving DecidableEq, Repr

/-- The pre-install block of a recipe: info text and the optional discovery
requirement command. -/
structure OpenInstallationPreInstallConfiguration where
  Info : String
  RequireAtDiscovery : String
  deriving DecidableEq, Repr

/-- The post-install block of a recipe. -/
structure OpenInstallationPostInstallConfiguration where
  Info : String
  deriving DecidableEq, Repr

/-- A log-match pattern of a recipe. -/
structure OpenInstallationLogMatch where
  Name : String
  File : String
  deriving DecidableEq, Repr

/-- The fields of `types.OpenInstallationRecipe` that the scenario builder and
the tests set. -/
structure OpenInstallationRecipe where
  Name : String
  DisplayName : String
  PreInstall : OpenInstallationPreInstallConfiguration
  PostInstall : OpenInstallationPostInstallConfiguration
  ValidationNRQL : String
  LogMatch : List OpenInstallationLogMatch
  Install : String
  deriving DecidableEq, Repr

/-- Host facts gathered by the discovery collector. -/
structure DiscoveryManifest where
  OS : String
  Processes : List String
  deriving DecidableEq, Repr

/-- A single observed fact about one recipe: which recipe, and the entity GUID
reported with it (empty when none). -/
structure RecipeStatusEvent where
  Recipe : OpenInstallationRecipe
  EntityGUID : String
  deriving DecidableEq, Repr

/-- The lifecycle events, one per entry point of the status subscriber
interface. -/
inductive LifecycleEvent where
  | RecipesAvailable (recipes : List OpenInstallationRecipe)
  | RecipesSelected (recipes : List OpenInstallationRecipe)
  | DiscoveryComplete (manifest : DiscoveryManifest)
  | RecipeAvailable (recipe : OpenInstallationRecipe)
  | RecipeRecommended (event : RecipeStatusEvent)
  | RecipeInstalling (event : RecipeStatusEvent)
  | RecipeInstalled (event : RecipeStatusEvent)
  | RecipeFailed (event : RecipeStatusEvent)
  | RecipeSkipped (event : RecipeStatusEvent)
  | InstallComplete
  | InstallCanceled
  deriving DecidableEq, Repr

/-- A status subscriber as the aggregator sees it: whether its handler returns
an error on a given event, and the events delivered to it so far, oldest
first. -/
structure StatusSubscriber where
  failsOn : LifecycleEvent → Bool
  received : List LifecycleEvent

/-- The aggregate state of one installation run. -/
structure InstallStatus where
  Statuses : List RecipeStatus
  EntityGUIDs : List String
  successLinkConfig : SuccessLinkConfig
  statusSubscriber : List StatusSubscriber
  Complete : Bool
  Canceled : Bool
  loggedErrors : Nat

/-- Name of the host-level recipe, `types.InfraAgentRecipeName`. -/
def InfraAgentRecipeName : String := "infrastructure-agent-installer"

/-- Modelled from the spec: `InstallStatus.hasAnyRecipeStatus`, whose source
file is not part of the sources: "a read used to decide whether any recipe
reached a given terminal state". -/
def InstallStatus.hasAnyRecipeStatus (s : InstallStatus) (status : RecipeStatusType) : Bool :=
  s.Statuses.any (fun r => r.Status == status)

/-- Modelled from the spec: `InstallStatus.HostEntityGUID`, whose source file
is not part of the sources: "returns the entity GUID associated with the
host-level recipe (e.g., the infrastructure agent)"; the empty string when the
host-level recipe has no entry. -/
def InstallStatus.HostEntityGUID (s : InstallStatus) : String :=
  match s.Statuses.find? (fun r => r.Name == InfraAgentRecipeName) with
  | some r => r.EntityGUID
  | none => ""

/-! ## Success link generator (`success_link_generator.go`) -/

/-- The fixed platform hostnames. -/
structure PlatformHostnames where
  Staging : String
  US : String
  EU : String

/-- The table `nrPlatformHostnames`. -/
def nrPlatformHostnames : PlatformHostnames :=
  { Staging := "staging-one.newrelic.com"
    US := "one.newrelic.com"
    EU := "one.eu.newrelic.com" }

/-- Function `nrPlatformHostname`: the platform host for the region of the
default profile; `defaultProfile` is the result of
`credentials.DefaultProfile()`, `none` for nil. -/
def nrPlatformHostname (defaultProfile : Option Profile) : String :=
  match defaultProfile with
  | none => nrPlatformHostnames.US
  | some p =>
    if equalFold p.Region regionStaging then nrPlatformHostnames.Staging
    else if equalFold p.Region regionEU then nrPlatformHostnames.EU
    else nrPlatformHostnames.US

/-- Function `generateExplorerLink`.  The arguments of `fmt.Sprintf` are
evaluated left to right; the last one reads `AccountID` through the pointer
returned by `credentials.DefaultProfile()` and panics when that pointer is nil,
which is the result `none`. -/
def generateExplorerLink (defaultProfile : Option Profile) (filter : String) : Option String :=
  let host := nrPlatformHostname defaultProfile
  let encoded := Base64Encode filter
  match defaultProfile with
  | none => none
  | some p =>
    some ("https://" ++ host ++ "/launcher/nr1-core.explorer?platform[filters]=" ++ encoded
      ++ "&platform[accountId]=" ++ formatInt p.AccountID)

/-- Function `generateEntityLink`. -/
def generateEntityLink (defaultProfile : Option Profile) (entityGUID : String) : String :=
  "https://" ++ nrPlatformHostname defaultProfile ++ "/redirect/entity/" ++ entityGUID

/-- Method `ConcreteSuccessLinkGenerator.GenerateRedirectURL`; `none` is a
panic. -/
def GenerateRedirectURL (defaultProfile : Option Profile) (status : InstallStatus) :
    Option String :=
  if status.hasAnyRecipeStatus RecipeStatusType.INSTALLED then
    if equalFold status.successLinkConfig.LinkType "explorer" then
      generateExplorerLink defaultProfile status.successLinkConfig.Filter
    else
      some (generateEntityLink defaultProfile status.HostEntityGUID)
  else
    some ""

/-! ## Install command (`internal/install/command.go`) -/

/-- Run-scoped configuration, `types.InstallerContext`. -/
structure InstallerContext where
  AssumeYes : Bool
  LocalRecipes : String
  RecipeNames : List String
  RecipePaths : List String
  SkipIntegrations : Bool
  SkipLoggingInstall : Bool
  SkipApm : Bool
  SkipInfraInstall : Bool
  deriving DecidableEq, Repr

/-- The package-level flag variables of the install command. -/
structure CommandFlags where
  assumeYes : Bool
  localRecipes : String
  recipeNames : List String
  recipePaths : List String
  skipIntegrations : Bool
  skipLoggingInstall : Bool
  skipApm : Bool
  skipInfra : Bool
  testMode : Bool
  debug : Bool
  trace : Bool
  deriving DecidableEq, Repr

/-- The errors `RecipeInstaller.Install` can return: the sentinel
`types.ErrInterrupt`, told apart by `==`, or any other error, with the text of
its `Error()`. -/
inductive InstallError where
  | ErrInterrupt
  | other (msg : String)
  deriving DecidableEq, Repr

/-- How the callback of the command ends: it returns, or `log.Fatal` prints a
message and exits the process. -/
inductive CommandOutcome where
  | returned
  | fatal (msg : String)
  deriving DecidableEq, Repr

/-- What one run of the command does: the log level it sets, if any, whether
the installer was run, and how it ends. -/
structure CommandRun where
  logLevel : Option String
  installRan : Bool
  outcome : CommandOutcome
  deriving DecidableEq, Repr

/-- Function `assertProfileIsValid`: the error text for a nil profile. -/
def assertProfileIsValid (profile : Option Profile) : Option String :=
  match profile with
  | none => some "default profile has not been set"
  | some _ => none

/-- The text `log.Fatalf` prints for a failed installation. -/
def installFailureMessage (err : String) : String :=
  "We encountered an error during the installation: " ++ err ++
    ". If this problem persists please visit the documentation and support page for additional help here: https://one.newrelic.com/-/06vjAeZLKjP"

/-- The installer context that `Run` builds from the flag variables. -/
def CommandFlags.installerContext (flags : CommandFlags) : InstallerContext :=
  { AssumeYes := flags.assumeYes
    LocalRecipes := flags.localRecipes
    RecipeNames := flags.recipeNames
    RecipePaths := flags.recipePaths
    SkipIntegrations := flags.skipIntegrations
    SkipLoggingInstall := flags.skipLoggingInstall
    SkipApm := flags.skipApm
    SkipInfraInstall := flags.skipInfra }

/-- The `Run` function of `Command`, from the callback given to
`client.WithClientAndProfile` on; `install ic` is the result of
`NewRecipeInstaller(ic, nrClient).Install()`, `none` for a nil error. -/
def Command.Run (flags : CommandFlags) (profile : Option Profile)
    (install : InstallerContext → Option InstallError) : CommandRun :=
  let ic : InstallerContext := flags.installerContext
  let level : Option String :=
    if flags.trace then some "trace" else if flags.debug then some "debug" else none
  match assertProfileIsValid profile with
  | some err => { logLevel := level, installRan := false, outcome := CommandOutcome.fatal err }
  | none =>
    match install ic with
    | none => { logLevel := level, installRan := true, outcome := CommandOutcome.returned }
    | some InstallError.ErrInterrupt =>
      { logLevel := level, installRan := true, outcome := CommandOutcome.returned }
    | some (InstallError.other msg) =>
      { logLevel := level, installRan := true
        outcome := CommandOutcome.fatal (installFailureMessage msg) }

/-! ## Install status aggregator -/

/-- The terminal lifecycle values. -/
def RecipeStatusType.isTerminal : RecipeStatusType → Bool
  | INSTALLED => true
  | FAILED => true
  | SKIPPED => true
  | CANCELED => true
  | _ => false

/-- Position of a status along the lifecycle graph
`AVAILABLE → RECOMMENDED → SELECTED → INSTALLING → terminal`. -/
def RecipeStatusType.rank : RecipeStatusType → Nat
  | AVAILABLE => 0
  | RECOMMENDED => 1
  | SELECTED => 2
  | INSTALLING => 3
  | _ => 4

/-- The current status of a recipe in the status map, `none` when the recipe
has no entry. -/
def statusIn (name : String) : List RecipeStatus → Option RecipeStatusType
  | [] => none
  | r :: rest => if r.Name = name then some r.Status else statusIn name rest

/-- The current status of a recipe in an install status. -/
def InstallStatus.statusOf (s : InstallStatus) (name : String) : Option RecipeStatusType :=
  statusIn name s.Statuses

/-- Modelled from the spec: the validation of a status transition in the
aggregator, whose source file is not part of the sources.  The spec has the
entry points reject regressions along the lifecycle graph: a terminal status is
never left, a move must go forward, and `INSTALLING` is entered only from
`SELECTED`, `RECOMMENDED` or `AVAILABLE` (so not by a recipe without status). -/
def transitionAllowed (current : Option RecipeStatusType) (next : RecipeStatusType) : Bool :=
  match current with
  | none => next != RecipeStatusType.INSTALLING
  | some c => !c.isTerminal && decide (c.rank < next.rank)

/-- Write a status into the map: the entry of the recipe is updated in place, a
recipe without entry gets one at the end. -/
def setStatus (name guid : String) (next : RecipeStatusType) :
    List RecipeStatus → List RecipeStatus
  | [] => [{ Name := name, Status := next, EntityGUID := guid }]
  | r :: rest =>
    if r.Name = name then
      { r with Status := next, EntityGUID := if guid = "" then r.EntityGUID else guid } :: rest
    else r :: setStatus name guid next rest

/-- Modelled from the spec: step (1) of an aggregator entry point for one
recipe, "validates and applies the corresponding status transition to its
internal map", a rejected regression being a no-op as the spec's design note
asks. -/
def InstallStatus.withRecipeEvent (s : InstallStatus) (name guid : String)
    (next : RecipeStatusType) : InstallStatus :=
  if transitionAllowed (s.statusOf name) next then
    { s with
      Statuses := setStatus name guid next s.Statuses
      EntityGUIDs :=
        if guid = "" ∨ guid ∈ s.EntityGUIDs then s.EntityGUIDs else s.EntityGUIDs ++ [guid] }
  else s

/-- Modelled from the spec: the status transition that corresponds to each
lifecycle entry point of the aggregator.  A cancelled run keeps every recipe
in its last-reported status ("no rollback") and is marked canceled. -/
def InstallStatus.applyEvent (s : InstallStatus) : LifecycleEvent → InstallStatus
  | .RecipesAvailable recipes =>
    recipes.foldl (fun acc r => acc.withRecipeEvent r.Name "" RecipeStatusType.AVAILABLE) s
  | .RecipesSelected recipes =>
    recipes.foldl (fun acc r => acc.withRecipeEvent r.Name "" RecipeStatusType.SELECTED) s
  | .DiscoveryComplete _ => s
  | .RecipeAvailable r => s.withRecipeEvent r.Name "" RecipeStatusType.AVAILABLE
  | .RecipeRecommended e =>
    s.withRecipeEvent e.Recipe.Name e.EntityGUID RecipeStatusType.RECOMMENDED
  | .RecipeInstalling e =>
    s.withRecipeEvent e.Recipe.Name e.EntityGUID RecipeStatusType.INSTALLING
  | .RecipeInstalled e =>
    s.withRecipeEvent e.Recipe.Name e.EntityGUID RecipeStatusType.INSTALLED
  | .RecipeFailed e => s.withRecipeEvent e.Recipe.Name e.EntityGUID RecipeStatusType.FAILED
  | .RecipeSkipped e => s.withRecipeEvent e.Recipe.Name e.EntityGUID RecipeStatusType.SKIPPED
  | .InstallComplete => { s with Complete := true }
  | .InstallCanceled => { s with Canceled := true }

/-- One subscriber handles an event: the event joins what it has received. -/
def StatusSubscriber.deliver (sub : StatusSubscriber) (e : LifecycleEvent) : StatusSubscriber :=
  { sub with received := sub.received ++ [e] }

/-- Modelled from the spec: the fan-out of an event, "invokes every registered
Subscriber synchronously with that event"; an error a subscriber returns is
counted (logged) and swallowed, and the loop goes on to the next subscriber.
The result is the subscribers after the call and the number of errors. -/
def notifySubscribers (e : LifecycleEvent) : List StatusSubscriber → List StatusSubscriber × Nat
  | [] => ([], 0)
  | sub :: rest =>
    let failed := sub.failsOn e
    let done := notifySubscribers e rest
    (sub.deliver e :: done.1, if failed then done.2 + 1 else done.2)

/-- Modelled from the spec: an aggregator entry point: apply the transition,
then notify every subscriber. -/
def InstallStatus.fire (s : InstallStatus) (e : LifecycleEvent) : InstallStatus :=
  let applied := s.applyEvent e
  let notified := notifySubscribers e applied.statusSubscriber
  { applied with
    statusSubscriber := notified.1
    loggedErrors := applied.loggedErrors + notified.2 }

/-- The aggregator after a sequence of lifecycle events, fired in order. -/
def InstallStatus.fireAll (s : InstallStatus) (events : List LifecycleEvent) : InstallStatus :=
  events.foldl InstallStatus.fire s

/-- Modelled from the spec: `NewInstallStatus`, whose source file is not part
of the sources: a fresh aggregator for one run, with the given subscribers,
no recipe status and no entity GUID. -/
def NewInstallStatus (subscribers : List StatusSubscriber) : InstallStatus :=
  { Statuses := []
    EntityGUIDs := []
    successLinkConfig := { LinkType := "", Filter := "" }
    statusSubscriber := subscribers
    Complete := false
    Canceled := false
    loggedErrors := 0 }

/-- A subscriber that has received nothing yet and fails on the events `failsOn`
selects. -/
def newSubscriber (failsOn : LifecycleEvent → Bool) : StatusSubscriber :=
  { failsOn := failsOn, received := [] }

/-! ## Install events reporter -/

/-- The mock install-events client of the tests: it counts the calls of
`CreateInstallEvent` and returns the error it was set up with, `none` for a
call that succeeds. -/
structure MockInstalleventsClient where
  CreateInstallEventCallCount : Nat
  CreateInstallEventErr : Option String
  deriving DecidableEq, Repr

/-- The constructor `NewMockInstalleventsClient`: no call yet, calls succeed. -/
def NewMockInstalleventsClient : MockInstalleventsClient :=
  { CreateInstallEventCallCount := 0, CreateInstallEventErr := none }

/-- One call of `CreateInstallEvent` on the mock client. -/
def MockInstalleventsClient.CreateInstallEvent (c : MockInstalleventsClient) :
    MockInstalleventsClient × Option String :=
  ({ c with CreateInstallEventCallCount := c.CreateInstallEventCallCount + 1 },
    c.CreateInstallEventErr)

/-- Modelled from the spec: a lifecycle method of `InstallEventsReporter`, whose
source file is not part of the sources (its unit tests are): the remote
install-events sink gets "one call per lifecycle event", and the method returns
the error of that call.  The eleven methods differ in the event they carry. -/
def InstallEventsReporter.report (c : MockInstalleventsClient) (_status : InstallStatus) :
    LifecycleEvent → MockInstalleventsClient × Option String
  | .RecipesAvailable _ => c.CreateInstallEvent
  | .RecipesSelected _ => c.CreateInstallEvent
  | .DiscoveryComplete _ => c.CreateInstallEvent
  | .RecipeAvailable _ => c.CreateInstallEvent
  | .RecipeRecommended _ => c.CreateInstallEvent
  | .RecipeInstalling _ => c.CreateInstallEvent
  | .RecipeInstalled _ => c.CreateInstallEvent
  | .RecipeFailed _ => c.CreateInstallEvent
  | .RecipeSkipped _ => c.CreateInstallEvent
  | .InstallComplete => c.CreateInstallEvent
  | .InstallCanceled => c.CreateInstallEvent

/-- A sequence of lifecycle method calls on one reporter: the client after the
calls and the errors the calls returned, in order. -/
def InstallEventsReporter.reportAll (c : MockInstalleventsClient) (status : InstallStatus) :
    List LifecycleEvent → MockInstalleventsClient × List (Option String)
  | [] => (c, [])
  | e :: rest =>
    let first := InstallEventsReporter.report c status e
    let others := InstallEventsReporter.reportAll first.1 status rest
    (others.1, first.2 :: others.2)

/-! ## Polling recipe validator -/

/-- One row of a query result; the validation query is a count aggregate. -/
structure NRDBResult where
  count : Nat
  deriving DecidableEq, Repr

/-- The `emptyResults` of the scenario builder: one row, count 0. -/
def emptyResults : List NRDBResult := [{ count := 0 }]

/-- The `nonEmptyResults` of the scenario builder: one row, count 1. -/
def nonEmptyResults : List NRDBResult := [{ count := 1 }]

/-- Modelled from the spec: whether a query result shows that telemetry has
landed, "a non-empty result set": it has a first row and that row counts at
least one event, so that the scenario builder's `emptyResults` is empty. -/
def hasData : List NRDBResult → Bool
  | [] => false
  | r :: _ => decide (0 < r.count)

/-- Modelled from the spec: the telemetry query backend as the validator sees
it, "`Query(nrql-like-query) → (results, error)`": the answer to the k-th
query (k from 1) and the number of queries made so far. -/
structure NRDBClient where
  answer : Nat → Except String (List NRDBResult)
  Attempts : Nat

/-- One query: the attempt is counted and answered. -/
def NRDBClient.Query (c : NRDBClient) : NRDBClient × Except String (List NRDBResult) :=
  ({ c with Attempts := c.Attempts + 1 }, c.answer (c.Attempts + 1))

/-- Modelled from the spec: `NewMockNRDBClient` followed by
`ReturnResultsAfterNAttempts(before, after, attempts)`, whose source file is
not part of the sources: the client answers `before` until attempt number
`attempts`, from which on it answers `after` (the Basic scenario, set up with
2, "returns non-empty on the 2nd poll"). -/
def ReturnResultsAfterNAttempts (before after : List NRDBResult) (attempts : Nat) : NRDBClient :=
  { answer := fun k => if k < attempts then Except.ok before else Except.ok after
    Attempts := 0 }

/-- The retry policy of the polling validator: the attempt budget. -/
structure PollingRecipeValidator where
  maxAttempts : Nat
  deriving DecidableEq, Repr

/-- The error of a validation that ran out of attempts. -/
def validationTimeout : String := "reached max validation attempts"

/-- Modelled from the spec: the poll loop of the validator, whose source file
is not part of the sources: it "polls an external query at a fixed interval up
to a bounded number of attempts; succeeds as soon as the query returns a
non-empty result set; fails with a timeout error" when only empty results came
back; an error of the query ends the validation with that error. -/
def waitForData (c : NRDBClient) : Nat → NRDBClient × Except String Unit
  | 0 => (c, Except.error validationTimeout)
  | remaining + 1 =>
    match c.Query with
    | (c1, Except.error err) => (c1, Except.error err)
    | (c1, Except.ok results) =>
      if hasData results then (c1, Except.ok ()) else waitForData c1 remaining

/-- Modelled from the spec: `PollingRecipeValidator.Validate`. -/
def PollingRecipeValidator.Validate (v : PollingRecipeValidator) (c : NRDBClient) :
    NRDBClient × Except String Unit :=
  waitForData c v.maxAttempts

/-- The string `s` contains `t` as a contiguous piece. -/
def containsText (s t : String) : Prop :=
  ∃ before after : String, s = before ++ t ++ after

/-- The query parameter that carries the filter of an explorer link. -/
def filtersParameter : String := "platform[filters]="

/-- The query parameter that carries the account ID of an explorer link. -/
def accountIdParameter : String := "platform[accountId]="

/-- The transitions of a sequence of lifecycle events alone, no subscriber
being notified. -/
def InstallStatus.applyAll (s : InstallStatus) (events : List LifecycleEvent) : InstallStatus :=
  events.foldl InstallStatus.applyEvent s

/-- Two install statuses that agree on everything but their subscribers and
the count of logged subscriber errors. -/
def sameRecord (a b : InstallStatus) : Prop :=
  a.Statuses = b.Statuses ∧ a.EntityGUIDs = b.EntityGUIDs
    ∧ a.successLinkConfig = b.successLinkConfig ∧ a.Complete = b.Complete
    ∧ a.Canceled = b.Canceled

/-! ## JSON decoding (`encoding/json`) -/

/-- A decoded JSON value.  A number keeps its exact decimal value, sign,
digits and power of ten. -/
inductive JsonValue where
  | null
  | bool (b : Bool)
  | number (negative : Bool) (mantissa : Nat) (exponent : Int)
  | string (s : String)
  | array (items : List JsonValue)
  | object (members : List (String × JsonValue))

/-- JSON white space. -/
def isJsonSpace (c : Char) : Bool :=
  c == ' ' || c == '\t' || c == '\n' || c == '\r'

/-- Drop leading JSON white space. -/
def skipSpace : List Char → List Char
  | [] => []
  | c :: cs => if isJsonSpace c then skipSpace cs else c :: cs

/-- The input with the literal `lit` taken off its front, `none` when the input
does not start with it. -/
def dropLiteral : List Char → List Char → Option (List Char)
  | [], cs => some cs
  | _ :: _, [] => none
  | l :: lit, c :: cs => if l = c then dropLiteral lit cs else none

/-- Value of a hexadecimal digit. -/
def hexValue (c : Char) : Option Nat :=
  if '0'.toNat ≤ c.toNat ∧ c.toNat ≤ '9'.toNat then some (c.toNat - '0'.toNat)
  else if 'a'.toNat ≤ c.toNat ∧ c.toNat ≤ 'f'.toNat then some (c.toNat - 'a'.toNat + 10)
  else if 'A'.toNat ≤ c.toNat ∧ c.toNat ≤ 'F'.toNat then some (c.toNat - 'A'.toNat + 10)
  else none

/-- The four hexadecimal digits of a `\u` escape, with the rest of the input. -/
def readHex4 : List Char → Option (Nat × List Char)
  | a :: b :: c :: d :: rest =>
    match hexValue a, hexValue b, hexValue c, hexValue d with
    | some x, some y, some z, some w => some (x * 4096 + y * 256 + z * 16 + w, rest)
    | _, _, _, _ => none
  | _ => none

/-- The rune of a `\u` escape whose code unit is `unit`, with the rest of the
input: a high surrogate joins a low surrogate escape that follows it, any other
surrogate is replaced by U+FFFD. -/
def decodeEscapedUnit (unit : Nat) (rest : List Char) : Char × List Char :=
  if 0xD800 ≤ unit ∧ unit < 0xDC00 then
    match rest with
    | '\\' :: 'u' :: more =>
      match readHex4 more with
      | some (low, after) =>
        if 0xDC00 ≤ low ∧ low < 0xE000 then
          (Char.ofNat (0x10000 + (unit - 0xD800) * 1024 + (low - 0xDC00)), after)
        else (Char.ofNat 0xFFFD, rest)
      | none => (Char.ofNat 0xFFFD, rest)
    | _ => (Char.ofNat 0xFFFD, rest)
  else if 0xDC00 ≤ unit ∧ unit < 0xE000 then (Char.ofNat 0xFFFD, rest)
  else (Char.ofNat unit, rest)

/-- The body of a JSON string, after the opening quote: the decoded text and
the input after the closing quote.  `fuel` bounds the number of steps. -/
def readString : Nat → List Char → List Char → Option (String × List Char)
  | 0, _, _ => none
  | _ + 1, _, [] => none
  | fuel + 1, acc, c :: cs =>
    if c = '"' then some (String.mk acc.reverse, cs)
    else if c = '\\' then
      match cs with
      | [] => none
      | e :: rest =>
        if e = '"' then readString fuel ('"' :: acc) rest
        else if e = '\\' then readString fuel ('\\' :: acc) rest
        else if e = '/' then readString fuel ('/' :: acc) rest
        else if e = 'b' then readString fuel (Char.ofNat 8 :: acc) rest
        else if e = 'f' then readString fuel (Char.ofNat 12 :: acc) rest
        else if e = 'n' then readString fuel ('\n' :: acc) rest
        else if e = 'r' then readString fuel ('\r' :: acc) rest
        else if e = 't' then readString fuel ('\t' :: acc) rest
        else if e = 'u' then
          match readHex4 rest with
          | none => none
          | some (unit, more) =>
            readString fuel ((decodeEscapedUnit unit more).1 :: acc)
              (decodeEscapedUnit unit more).2
        else none
    else if c.toNat < 0x20 then none
    else readString fuel (c :: acc) cs

/-- The leading decimal digits of the input and what follows them. -/
def takeDigits : List Char → List Char × List Char
  | [] => ([], [])
  | c :: cs =>
    if c.isDigit then ((takeDigits cs).1.cons c, (takeDigits cs).2) else ([], c :: cs)

/-- The number written by a sequence of decimal digits. -/
def digitsValue (digits : List Char) : Nat :=
  digits.foldl (fun n c => n * 10 + (c.toNat - '0'.toNat)) 0

/-- The integer part of a JSON number: a single `0`, or a digit from 1 to 9
followed by digits. -/
def readIntegerPart : List Char → Option (List Char × List Char)
  | [] => none
  | c :: cs =>
    if c = '0' then some (['0'], cs)
    else if c.isDigit then some (c :: (takeDigits cs).1, (takeDigits cs).2)
    else none

/-- The optional fraction of a JSON number: a point and at least one digit. -/
def readFraction : List Char → Option (List Char × List Char)
  | '.' :: cs =>
    match takeDigits cs with
    | ([], _) => none
    | (digits, rest) => some (digits, rest)
  | cs => some ([], cs)

/-- The digits of an exponent after its sign: at least one. -/
def readExponentDigits (negative : Bool) (cs : List Char) : Option (Int × List Char) :=
  match takeDigits cs with
  | ([], _) => none
  | (digits, rest) =>
    some (if negative then - (digitsValue digits : Int) else (digitsValue digits : Int), rest)

/-- The optional exponent of a JSON number. -/
def readExponent : List Char → Option (Int × List Char)
  | [] => some (0, [])
  | c :: cs =>
    if c = 'e' ∨ c = 'E' then
      match cs with
      | '+' :: more => readExponentDigits false more
      | '-' :: more => readExponentDigits true more
      | _ => readExponentDigits false cs
    else some (0, c :: cs)

/-- Number of decimal digits of a positive number. -/
def decimalLength (n : Nat) : Nat :=
  (Nat.toDigits 10 n).length

/-- Whether `strconv.ParseFloat` reports a range error for the decimal
`mantissa * 10 ^ exponent`: the value rounds to infinity, which it does from
`2 ^ 1024 - 2 ^ 970` on, a number of 309 digits.  Values of at most 308 or at
least 310 digits are settled by their length. -/
def floatOverflows (mantissa : Nat) (exponent : Int) : Bool :=
  if mantissa = 0 then false
  else if (decimalLength mantissa : Int) + exponent ≤ 308 then false
  else if 309 < (decimalLength mantissa : Int) + exponent then true
  else
    match exponent with
    | Int.ofNat e => decide (2 ^ 1024 - 2 ^ 970 ≤ mantissa * 10 ^ e)
    | Int.negSucc e => decide ((2 ^ 1024 - 2 ^ 970) * 10 ^ (e + 1) ≤ mantissa)

/-- A JSON number at the front of the input (after its optional minus sign,
which `negative` records); `none` for bad syntax and for a value that does not
fit a `float64`. -/
def readNumber (negative : Bool) (cs : List Char) : Option (JsonValue × List Char) :=
  match readIntegerPart cs with
  | none => none
  | some (whole, rest1) =>
    match readFraction rest1 with
    | none => none
    | some (fraction, rest2) =>
      match readExponent rest2 with
      | none => none
      | some (power, rest3) =>
        let mantissa := digitsValue (whole ++ fraction)
        let exponent := power - (fraction.length : Int)
        if floatOverflows mantissa exponent then none
        else some (JsonValue.number negative mantissa exponent, rest3)

/-- What the decoder is reading: a value, the elements of an array after its
opening bracket, or the members of an object after its opening brace; the
elements and members read so far come along. -/
inductive DecodeGoal where
  | value
  | elements (done : List JsonValue)
  | members (done : List (String × JsonValue))

/-- The JSON decoder: the value read and the input after it; `fuel` bounds the
number of steps. -/
def readJson : Nat → DecodeGoal → List Char → Option (JsonValue × List Char)
  | 0, _, _ => none
  | fuel + 1, DecodeGoal.value, cs =>
    match skipSpace cs with
    | [] => none
    | c :: rest =>
      if c = '{' then
        match skipSpace rest with
        | [] => none
        | d :: more =>
          if d = '}' then some (JsonValue.object [], more)
          else readJson fuel (DecodeGoal.members []) (d :: more)
      else if c = '[' then
        match skipSpace rest with
        | [] => none
        | d :: more =>
          if d = ']' then some (JsonValue.array [], more)
          else readJson fuel (DecodeGoal.elements []) (d :: more)
      else if c = '"' then
        match readString (rest.length + 1) [] rest with
        | none => none
        | some (s, more) => some (JsonValue.string s, more)
      else if c = 't' then (dropLiteral "rue".data rest).map (fun r => (JsonValue.bool true, r))
      else if c = 'f' then (dropLiteral "alse".data rest).map (fun r => (JsonValue.bool false, r))
      else if c = 'n' then (dropLiteral "ull".data rest).map (fun r => (JsonValue.null, r))
      else if c = '-' then readNumber true rest
      else readNumber false (c :: rest)
  | fuel + 1, DecodeGoal.elements done, cs =>
    match readJson fuel DecodeGoal.value cs with
    | none => none
    | some (v, rest) =>
      match skipSpace rest with
      | [] => none
      | c :: more =>
        if c = ',' then readJson fuel (DecodeGoal.elements (done ++ [v])) more
        else if c = ']' then some (JsonValue.array (done ++ [v]), more)
        else none
  | fuel + 1, DecodeGoal.members done, cs =>
    match skipSpace cs with
    | [] => none
    | q :: afterQuote =>
      if q = '"' then
        match readString (afterQuote.length + 1) [] afterQuote with
        | none => none
        | some (key, rest) =>
          match skipSpace rest with
          | [] => none
          | colon :: afterColon =>
            if colon = ':' then
              match readJson fuel DecodeGoal.value afterColon with
              | none => none
              | some (v, rest2) =>
                match skipSpace rest2 with
                | [] => none
                | c :: more =>
                  if c = ',' then readJson fuel (DecodeGoal.members (done ++ [(key, v)])) more
                  else if c = '}' then some (JsonValue.object (done ++ [(key, v)]), more)
                  else none
            else none
      else none

/-- A whole JSON text: one value with nothing but white space around it. -/
def decodeJson (text : String) : Option JsonValue :=
  match readJson (2 * text.length + 2) DecodeGoal.value text.data with
  | none => none
  | some (v, rest) => if skipSpace rest = [] then some v else none

/-- Go's `json.Unmarshal` of a text into a `map[string]interface{}`: the
members of a JSON object, in the order written (in the map a later member
replaces an earlier one of the same key); `none` for the JSON `null`, which
leaves the map nil; an error for a text that is not JSON, for a number outside
`float64` and for a value of any other kind.  The error texts describe the
error, they are not Go's wording. -/
def jsonUnmarshalMap (text : String) : Except String (Option (List (String × JsonValue))) :=
  match decodeJson text with
  | none => Except.error "invalid JSON text"
  | some (JsonValue.object members) => Except.ok (some members)
  | some JsonValue.null => Except.ok none
  | some _ => Except.error "json: cannot unmarshal value into Go value of type map[string]interface {}"

/-- The keys of the map a text decodes to; no key for a text that does not
decode to an object. -/
def jsonKeys (text : String) : List String :=
  match jsonUnmarshalMap text with
  | Except.ok (some members) => members.map (fun m => m.1)
  | _ => []

/-- Whether `json.Unmarshal` into a map returns a nil error. -/
def jsonUnmarshalSucceeds (text : String) : Bool :=
  match jsonUnmarshalMap text with
  | Except.ok _ => true
  | Except.error _ => false

/-! ## More Go library helpers -/

/-- Lower-case form of a rune as `unicode.ToLower` gives it: an ASCII capital
goes to its small letter, the dotted capital I U+0130 to `i` and the Kelvin
sign U+212A to `k`.  These are all the runes whose lower case is an ASCII
character, so the table decides every comparison of a lower-cased string with
an ASCII string; any other rune stands for itself. -/
def lowerRune (c : Char) : Char :=
  if 'A'.toNat ≤ c.toNat ∧ c.toNat ≤ 'Z'.toNat then Char.ofNat (c.toNat + 32)
  else if c.toNat = 0x130 then 'i'
  else if c.toNat = 0x212A then 'k'
  else c

/-- Go's `strings.ToLower`. -/
def toLower (s : String) : String :=
  String.mk (s.data.map lowerRune)

/-- Go's `strconv.ParseBool`: the boolean a string spells, `none` for the
syntax error. -/
def ParseBool (s : String) : Option Bool :=
  if s = "1" ∨ s = "t" ∨ s = "T" ∨ s = "TRUE" ∨ s = "true" ∨ s = "True" then some true
  else if s = "0" ∨ s = "f" ∨ s = "F" ∨ s = "FALSE" ∨ s = "false" ∨ s = "False" then some false
  else none

/-! ## Scenario builder (`internal/install/scenario_builder.go`) -/

/-- The type `TestScenario`, a string. -/
abbrev TestScenario := String

/-- The scenario constant `Basic`. -/
def TestScenario.Basic : TestScenario := "BASIC"

/-- The scenario constant `Fail`. -/
def TestScenario.Fail : TestScenario := "FAIL"

/-- The scenario constant `ExecDiscovery`. -/
def TestScenario.ExecDiscovery : TestScenario := "EXEC_DISCOVERY"

/-- The list `TestScenarios`. -/
def TestScenarios : List TestScenario := [TestScenario.Basic, TestScenario.Fail]

/-- The collaborators that the scenario builder makes with a constructor
without argument, each named after its constructor. -/
inductive Collaborator where
  | MockStatusReporter
  | TerminalStatusReporter
  | PlatformLinkGenerator
  | MockConfigValidator
  | EmptyManifestValidator
  | MockLicenseKeyFetcher
  | RecipeFileFetcher
  | PSUtilDiscoverer
  | GlobFileFilterer
  | GoTaskRecipeExecutor
  | MockFailingRecipeExecutor
  | PromptUIPrompter
  | PlainProgress
  | RecipeVarProvider
  deriving DecidableEq, Repr

/-- The mock recipe fetcher: the recipes it was given to return. -/
structure MockRecipeFetcher where
  FetchRecipesVal : List OpenInstallationRecipe
  deriving DecidableEq, Repr

/-- Modelled from the spec: `MockRecipeFetcher.FetchRecipes`, whose source file
is not part of the sources: "`FetchRecipes(ctx) → ([]Recipe, error)` retrieves
the candidate catalog"; the mock retrieves the catalog it was set up with. -/
def MockRecipeFetcher.FetchRecipes (f : MockRecipeFetcher) : List OpenInstallationRecipe :=
  f.FetchRecipesVal

/-- The install status a scenario makes: `NewInstallStatus(ers, slg)`. -/
structure ScenarioStatus where
  subscribers : List Collaborator
  linkGenerator : Collaborator
  deriving DecidableEq, Repr

/-- The mock query client a scenario makes: `NewMockNRDBClient()` after
`ReturnResultsAfterNAttempts(before, after, attempts)`. -/
structure ScenarioNRDBClient where
  before : List NRDBResult
  after : List NRDBResult
  attempts : Nat
  deriving DecidableEq, Repr

/-- The validator a scenario makes: `NewPollingRecipeValidator(c)`. -/
structure ScenarioValidator where
  client : ScenarioNRDBClient
  deriving DecidableEq, Repr

/-- The recipe filterer a scenario makes:
`NewRecipeFilterRunner(installerContext, statusRollup)`. -/
structure ScenarioFilterRunner where
  installerContext : InstallerContext
  status : ScenarioStatus
  deriving DecidableEq, Repr

/-- The fields of `RecipeInstaller` that the scenario builder sets; a field that
a struct literal leaves out is nil, `none`. -/
structure RecipeInstaller where
  InstallerContext : InstallerContext
  discoverer : Option Collaborator
  fileFilterer : Option Collaborator
  recipeFetcher : Option MockRecipeFetcher
  recipeExecutor : Option Collaborator
  recipeValidator : Option ScenarioValidator
  recipeFileFetcher : Option Collaborator
  status : Option ScenarioStatus
  prompter : Option Collaborator
  progressIndicator : Option Collaborator
  configValidator : Option Collaborator
  manifestValidator : Option Collaborator
  licenseKeyFetcher : Option Collaborator
  recipeFilterer : Option ScenarioFilterRunner
  recipeVarPreparer : Option Collaborator
  deriving DecidableEq, Repr

/-- The scenario builder. -/
structure ScenarioBuilder where
  installerContext : InstallerContext
  deriving DecidableEq, Repr

/-- Function `NewScenarioBuilder`. -/
def NewScenarioBuilder (ic : InstallerContext) : ScenarioBuilder :=
  { installerContext := ic }

/-- Function `setupRecipeFetcherGuidedInstall`. -/
def setupRecipeFetcherGuidedInstall : MockRecipeFetcher :=
  { FetchRecipesVal :=
      [{ Name := "infrastructure-agent-installer"
         DisplayName := "Infrastructure Agent"
         PreInstall :=
           { Info := "\nThis is the Infrastructure Agent Installer preinstall message.\nIt is made up of a multi line string.\n\t\t\t\t"
             RequireAtDiscovery := "" }
         PostInstall :=
           { Info := "\nThis is the Infrastructure Agent Installer postinstall message.\nIt is made up of a multi line string.\n\t\t\t\t" }
         ValidationNRQL := "test NRQL"
         LogMatch := []
         Install := "\nversion: \x273\x27\ntasks:\n  default:\n" },
       { Name := "logs-integration"
         DisplayName := "Logs integration"
         PreInstall := { Info := "", RequireAtDiscovery := "" }
         PostInstall := { Info := "" }
         ValidationNRQL := "test NRQL"
         LogMatch := [{ Name := "docker log", File := "/var/lib/docker/containers/*/*.log" }]
         Install := "\nversion: \x273\x27\ntasks:\n  default:\n" }] }

/-- Function `setupRecipeFetcherExecDiscovery`. -/
def setupRecipeFetcherExecDiscovery : MockRecipeFetcher :=
  { FetchRecipesVal :=
      [{ Name := "matching-recipe"
         DisplayName := "matching-recipe"
         PreInstall := { Info := "", RequireAtDiscovery := "true" }
         PostInstall := { Info := "" }
         ValidationNRQL := ""
         LogMatch := []
         Install := "" },
       { Name := "non-matching-recipe"
         DisplayName := "non-matching-recipe"
         PreInstall := { Info := "", RequireAtDiscovery := "bogus command" }
         PostInstall := { Info := "" }
         ValidationNRQL := ""
         LogMatch := []
         Install := "" }] }

/-- The status roll-up that each scenario makes first. -/
def scenarioStatusRollup : ScenarioStatus :=
  { subscribers := [Collaborator.MockStatusReporter, Collaborator.TerminalStatusReporter]
    linkGenerator := Collaborator.PlatformLinkGenerator }

/-- The validator that each scenario makes: its client answers `emptyResults`,
then `nonEmptyResults`, switching at 2 attempts. -/
def scenarioValidator : ScenarioValidator :=
  { client := { before := emptyResults, after := nonEmptyResults, attempts := 2 } }

/-- Method `ScenarioBuilder.Basic`. -/
def ScenarioBuilder.Basic (b : ScenarioBuilder) : RecipeInstaller :=
  let rf := setupRecipeFetcherGuidedInstall
  let statusRollup := scenarioStatusRollup
  let v := scenarioValidator
  let cv := Collaborator.MockConfigValidator
  let mv := Collaborator.EmptyManifestValidator
  let lkf := Collaborator.MockLicenseKeyFetcher
  let ff := Collaborator.RecipeFileFetcher
  let d := Collaborator.PSUtilDiscoverer
  let gff := Collaborator.GlobFileFilterer
  let re := Collaborator.GoTaskRecipeExecutor
  let p := Collaborator.PromptUIPrompter
  let s := Collaborator.PlainProgress
  let rfi : ScenarioFilterRunner :=
    { installerContext := b.installerContext, status := statusRollup }
  let rvp := Collaborator.RecipeVarProvider
  { InstallerContext := b.installerContext
    discoverer := some d
    fileFilterer := some gff
    recipeFetcher := some rf
    recipeExecutor := some re
    recipeValidator := some v
    recipeFileFetcher := some ff
    status := some statusRollup
    prompter := some p
    progressIndicator := some s
    configValidator := some cv
    manifestValidator := some mv
    licenseKeyFetcher := some lkf
    recipeFilterer := some rfi
    recipeVarPreparer := some rvp }

/-- Method `ScenarioBuilder.Fail`: its struct literal names neither
`recipeFilterer` nor `recipeVarPreparer`. -/
def ScenarioBuilder.Fail (b : ScenarioBuilder) : RecipeInstaller :=
  let rf := setupRecipeFetcherGuidedInstall
  let statusRollup := scenarioStatusRollup
  let v := scenarioValidator
  let cv := Collaborator.MockConfigValidator
  let mv := Collaborator.EmptyManifestValidator
  let lkf := Collaborator.MockLicenseKeyFetcher
  let ff := Collaborator.RecipeFileFetcher
  let d := Collaborator.PSUtilDiscoverer
  let gff := Collaborator.GlobFileFilterer
  let re := Collaborator.MockFailingRecipeExecutor
  let p := Collaborator.PromptUIPrompter
  let pi := Collaborator.PlainProgress
  { InstallerContext := b.installerContext
    discoverer := some d
    fileFilterer := some gff
    recipeFetcher := some rf
    recipeExecutor := some re
    recipeValidator := some v
    recipeFileFetcher := some ff
    status := some statusRollup
    prompter := some p
    progressIndicator := some pi
    configValidator := some cv
    manifestValidator := some mv
    licenseKeyFetcher := some lkf
    recipeFilterer := none
    recipeVarPreparer := none }

/-- Method `ScenarioBuilder.ExecDiscovery`. -/
def ScenarioBuilder.ExecDiscovery (b : ScenarioBuilder) : RecipeInstaller :=
  let rf := setupRecipeFetcherExecDiscovery
  let statusRollup := scenarioStatusRollup
  let v := scenarioValidator
  let cv := Collaborator.MockConfigValidator
  let mv := Collaborator.EmptyManifestValidator
  let lkf := Collaborator.MockLicenseKeyFetcher
  let ff := Collaborator.RecipeFileFetcher
  let d := Collaborator.PSUtilDiscoverer
  let gff := Collaborator.GlobFileFilterer
  let re := Collaborator.MockFailingRecipeExecutor
  let p := Collaborator.PromptUIPrompter
  let pi := Collaborator.PlainProgress
  let rvp := Collaborator.RecipeVarProvider
  let rr : ScenarioFilterRunner :=
    { installerContext := b.installerContext, status := statusRollup }
  { InstallerContext := b.installerContext
    discoverer := some d
    fileFilterer := some gff
    recipeFetcher := some rf
    recipeExecutor := some re
    recipeValidator := some v
    recipeFileFetcher := some ff
    status := some statusRollup
    prompter := some p
    progressIndicator := some pi
    configValidator := some cv
    manifestValidator := some mv
    licenseKeyFetcher := some lkf
    recipeFilterer := some rr
    recipeVarPreparer := some rvp }

/-- Method `ScenarioBuilder.BuildScenario`; `none` is the nil it returns for a
scenario it does not know. -/
def ScenarioBuilder.BuildScenario (b : ScenarioBuilder) (s : TestScenario) :
    Option RecipeInstaller :=
  if s = TestScenario.Basic then some b.Basic
  else if s = TestScenario.Fail then some b.Fail
  else if s = TestScenario.ExecDiscovery then some b.ExecDiscovery
  else none

/-- Modelled from the spec: condition (a) of `FilterRecipes`, whose source file
is not part of the sources: "a recipe is retained if it has no discovery
predicate, or the predicate, executed against the current host, succeeds";
`succeeds` is the outcome of running a predicate command on the host. -/
def passesDiscovery (succeeds : String → Bool) (r : OpenInstallationRecipe) : Bool :=
  r.PreInstall.RequireAtDiscovery == "" || succeeds r.PreInstall.RequireAtDiscovery

/-! ## NerdStorage document commands (`internal/nerdstorage/command_document.go`) -/

/-- The package-level flag variables of the document commands. -/
structure DocumentFlags where
  accountID : Int
  entityGUID : String
  packageID : String
  collection : String
  documentID : String
  document : String
  scope : String
  deriving DecidableEq, Repr

/-- The flag variables as `init` declares them: account ID 0, scope `USER`,
document `{}`, everything else empty. -/
def DocumentFlags.defaults : DocumentFlags :=
  { accountID := 0
    entityGUID := ""
    packageID := ""
    collection := ""
    documentID := ""
    document := "\x7b\x7d"
    scope := "USER" }

/-- The three kinds of document command. -/
inductive DocumentOperation where
  | get
  | write
  | delete
  deriving DecidableEq, Repr

/-- The scope of a NerdStorage operation, with the account ID or entity GUID
that the scoped method of the client takes. -/
inductive DocumentScope where
  | account (accountID : Int)
  | entity (entityGUID : String)
  | user
  deriving DecidableEq, Repr

/-- One call of a NerdStorage method of the client: which operation, in which
scope, on which input; `Document` is the decoded document of a write (`none`
inside for a nil map) and absent otherwise. -/
structure NerdStorageCall where
  operation : DocumentOperation
  scope : DocumentScope
  PackageID : String
  Collection : String
  DocumentID : String
  Document : Option (Option (List (String × JsonValue)))

/-- What one run of a document command does: the NerdStorage calls it makes,
what it prints, and how it ends. -/
structure DocumentRun where
  calls : List NerdStorageCall
  printed : List String
  outcome : CommandOutcome

/-- The text `log.Fatal` prints for a scope that is none of the three. -/
def scopeMessage : String := "scope must be one of ACCOUNT, ENTITY, or USER"

/-- The NerdStorage call of a command in a scope: the input is built from the
flag variables. -/
def documentCall (flags : DocumentFlags) (operation : DocumentOperation)
    (document : Option (Option (List (String × JsonValue)))) (scope : DocumentScope) :
    NerdStorageCall :=
  { operation := operation
    scope := scope
    PackageID := flags.packageID
    Collection := flags.collection
    DocumentID := flags.documentID
    Document := document }

/-- The `Run` function of `cmdDocumentGet`, from the callback given to
`client.WithClient` on.  `respond` is the answer of the client to a call, the
document or an error text, and `printError` the error of `output.Print`. -/
def cmdDocumentGet.Run (flags : DocumentFlags)
    (respond : NerdStorageCall → Except String String) (printError : String → Option String) :
    DocumentRun :=
  let input := documentCall flags DocumentOperation.get none
  let afterCall (c : NerdStorageCall) : DocumentRun :=
    match respond c with
    | Except.error err => { calls := [c], printed := [], outcome := CommandOutcome.fatal err }
    | Except.ok document =>
      match printError document with
      | some err => { calls := [c], printed := [], outcome := CommandOutcome.fatal err }
      | none => { calls := [c], printed := [document], outcome := CommandOutcome.returned }
  if toLower flags.scope = "account" then afterCall (input (DocumentScope.account flags.accountID))
  else if toLower flags.scope = "entity" then
    afterCall (input (DocumentScope.entity flags.entityGUID))
  else if toLower flags.scope = "user" then afterCall (input DocumentScope.user)
  else { calls := [], printed := [], outcome := CommandOutcome.fatal scopeMessage }

/-- The `Run` function of `cmdDocumentWrite`: the document is decoded before
the scope is looked at. -/
def cmdDocumentWrite.Run (flags : DocumentFlags)
    (respond : NerdStorageCall → Except String String) : DocumentRun :=
  match jsonUnmarshalMap flags.document with
  | Except.error err =>
    { calls := [], printed := []
      outcome := CommandOutcome.fatal ("error parsing provided document: " ++ err) }
  | Except.ok unmarshaled =>
    let input := documentCall flags DocumentOperation.write (some unmarshaled)
    let afterCall (c : NerdStorageCall) : DocumentRun :=
      match respond c with
      | Except.error err => { calls := [c], printed := [], outcome := CommandOutcome.fatal err }
      | Except.ok _ => { calls := [c], printed := [], outcome := CommandOutcome.returned }
    if toLower flags.scope = "account" then
      afterCall (input (DocumentScope.account flags.accountID))
    else if toLower flags.scope = "entity" then
      afterCall (input (DocumentScope.entity flags.entityGUID))
    else if toLower flags.scope = "user" then afterCall (input DocumentScope.user)
    else { calls := [], printed := [], outcome := CommandOutcome.fatal scopeMessage }

/-- The `Run` function of `cmdDocumentDelete`. -/
def cmdDocumentDelete.Run (flags : DocumentFlags)
    (respond : NerdStorageCall → Except String String) : DocumentRun :=
  let input := documentCall flags DocumentOperation.delete none
  let afterCall (c : NerdStorageCall) : DocumentRun :=
    match respond c with
    | Except.error err => { calls := [c], printed := [], outcome := CommandOutcome.fatal err }
    | Except.ok _ => { calls := [c], printed := [], outcome := CommandOutcome.returned }
  if toLower flags.scope = "account" then afterCall (input (DocumentScope.account flags.accountID))
  else if toLower flags.scope = "entity" then
    afterCall (input (DocumentScope.entity flags.entityGUID))
  else if toLower flags.scope = "user" then afterCall (input DocumentScope.user)
  else { calls := [], printed := [], outcome := CommandOutcome.fatal scopeMessage }

/-! ## Events post command (`internal/events/command_post.go`) -/

/-- What one run of the post command does: the `CreateEvent` calls it makes,
each with its account ID and event text, and how it ends. -/
structure PostRun where
  createEventCalls : List (Int × String)
  outcome : CommandOutcome
  deriving DecidableEq, Repr

/-- The text `log.Fatal` prints when the profile has no Insights insert key. -/
def insertKeyMessage : String :=
  "an Insights insert key is required, set one in your default profile or use the NEW_RELIC_INSIGHTS_INSERT_KEY environment variable"

/-- The `Run` function of `cmdPost`, from the callback given to
`client.WithClientAndProfile` on.  `accountID` and `event` are the flag
variables, `createEvent` is the error of `CreateEventWithContext`, `none` for
nil.  The result `none` is the panic of reading the insert key through a nil
profile. -/
def cmdPost.Run (accountID : Int) (event : String) (profile : Option Profile)
    (createEvent : Int → String → Option String) : Option PostRun :=
  match profile with
  | none => none
  | some p =>
    if p.InsightsInsertKey = "" then
      some { createEventCalls := [], outcome := CommandOutcome.fatal insertKeyMessage }
    else
      match jsonUnmarshalMap event with
      | Except.error err => some { createEventCalls := [], outcome := CommandOutcome.fatal err }
      | Except.ok _ =>
        match createEvent accountID event with
        | some err =>
          some { createEventCalls := [(accountID, event)], outcome := CommandOutcome.fatal err }
        | none =>
          some { createEventCalls := [(accountID, event)], outcome := CommandOutcome.returned }

/-! ## Entity search command (`internal/entities/command_search.go`) -/

/-- The package-level flag variables of the search command. -/
structure SearchFlags where
  entityName : String
  entityType : String
  entityAlertSeverity : String
  entityReporting : String
  entityDomain : String
  entityTag : String
  entityFields : List String
  deriving DecidableEq, Repr

/-- A tag of the search query. -/
structure EntitySearchQueryBuilderTag where
  Key : String
  Value : String
  deriving DecidableEq, Repr

/-- The fields of `entities.EntitySearchQueryBuilder` that the command sets;
`EntityType` is the field `Type` of the source. -/
structure EntitySearchQueryBuilder where
  Name : String
  EntityType : String
  AlertSeverity : String
  Domain : String
  Tags : List EntitySearchQueryBuilderTag
  Reporting : Bool
  deriving DecidableEq, Repr

/-- The zero value `entities.EntitySearchQueryBuilder{}`. -/
def EntitySearchQueryBuilder.zero : EntitySearchQueryBuilder :=
  { Name := "", EntityType := "", AlertSeverity := "", Domain := "", Tags := [],
    Reporting := false }

/-- What the command prints: the single result, or the list of results. -/
inductive SearchOutput where
  | one (entity : String)
  | many (entities : List String)
  deriving DecidableEq, Repr

/-- The place at which a run of the search command ends in a fatal log call. -/
inductive SearchStop where
  | missingCriteria
  | tag
  | reporting
  | search
  | print
  deriving DecidableEq, Repr

/-- What one run of the search command does: whether it shows the help, the
searches it sends, what it prints, where it stops if it does, how it ends. -/
structure SearchRun where
  helpShown : Bool
  searches : List EntitySearchQueryBuilder
  printed : List SearchOutput
  stoppedAt : Option SearchStop
  outcome : CommandOutcome
  deriving DecidableEq, Repr

/-- The text `log.Fatal` prints when no search criterion is given. -/
def criteriaMessage : String :=
  "one of --name, --type, --alert-severity, or --domain are required"

/-- The text `log.Fatalf` prints for a bad `--reporting` value. -/
def reportingMessage : String :=
  "invalid value provided for flag --reporting. Must be true or false."

/-- Function `mapEntities`. -/
def mapEntities (entities : List String) (fields : List String)
    (fn : String → List String → String) : List String :=
  entities.map (fun v => fn v fields)

/-- The result the command prints: a list of one element is printed as that
element. -/
def searchOutput (results : List String) : SearchOutput :=
  match results with
  | [single] => SearchOutput.one single
  | _ => SearchOutput.many results

/-- The end of the `Run` function of `cmdEntitySearch`: the search is sent with
the parameters built from the flags, and its result is printed. -/
def sendSearch (flags : SearchFlags) (params : EntitySearchQueryBuilder)
    (search : EntitySearchQueryBuilder → Except String (List String))
    (structToMap : String → List String → String)
    (printError : SearchOutput → Option String) : SearchRun :=
  match search params with
  | Except.error err =>
    { helpShown := false, searches := [params], printed := []
      stoppedAt := some SearchStop.search, outcome := CommandOutcome.fatal err }
  | Except.ok entities =>
    let result :=
      if 0 < flags.entityFields.length then
        searchOutput (mapEntities entities flags.entityFields structToMap)
      else searchOutput entities
    match printError result with
    | some err =>
      { helpShown := false, searches := [params], printed := []
        stoppedAt := some SearchStop.print, outcome := CommandOutcome.fatal err }
    | none =>
      { helpShown := false, searches := [params], printed := [result]
        stoppedAt := none, outcome := CommandOutcome.returned }

/-- The first step of the `Run` function of `cmdEntitySearch` after the
criteria check: each of the four criteria flags that is not empty is copied
into the search parameters. -/
def criteriaParams (flags : SearchFlags) : EntitySearchQueryBuilder :=
  let params0 := EntitySearchQueryBuilder.zero
  let params1 := if flags.entityName ≠ "" then { params0 with Name := flags.entityName }
    else params0
  let params2 := if flags.entityType ≠ "" then { params1 with EntityType := flags.entityType }
    else params1
  let params3 :=
    if flags.entityAlertSeverity ≠ "" then
      { params2 with AlertSeverity := flags.entityAlertSeverity }
    else params2
  if flags.entityDomain ≠ "" then { params3 with Domain := flags.entityDomain } else params3

/-- The second step: a tag flag that is not empty is taken apart by
`assembleTagValue`, whose error stops the run, and becomes the one tag of the
search parameters. -/
def taggedParams (flags : SearchFlags)
    (assembleTagValue : String → Except String (String × String)) :
    Except String EntitySearchQueryBuilder :=
  if flags.entityTag ≠ "" then
    match assembleTagValue flags.entityTag with
    | Except.error err => Except.error err
    | Except.ok (key, value) =>
      Except.ok { criteriaParams flags with Tags := [{ Key := key, Value := value }] }
  else Except.ok (criteriaParams flags)

/-- The third step: a reporting flag that is not empty goes through
`strconv.ParseBool`; `none` when that fails. -/
def reportedParams (flags : SearchFlags) (params : EntitySearchQueryBuilder) :
    Option EntitySearchQueryBuilder :=
  if flags.entityReporting ≠ "" then
    match ParseBool flags.entityReporting with
    | none => none
    | some reporting => some { params with Reporting := reporting }
  else some params

/-- The `Run` function of `cmdEntitySearch`, from the callback given to
`client.WithClient` on.  `assembleTagValue` is the helper of that name (key and
value of a tag, or an error text), `search` the answer of
`GetEntitySearchWithContext` (the entities found, or an error text),
`structToMap` is `utils.StructToMap`, `printError` the error of
`output.Print`.  Entities and their maps are carried as texts. -/
def cmdEntitySearch.Run (flags : SearchFlags)
    (assembleTagValue : String → Except String (String × String))
    (search : EntitySearchQueryBuilder → Except String (List String))
    (structToMap : String → List String → String)
    (printError : SearchOutput → Option String) : SearchRun :=
  if flags.entityName = "" ∧ flags.entityType = "" ∧ flags.entityAlertSeverity = ""
      ∧ flags.entityDomain = "" then
    { helpShown := true, searches := [], printed := []
      stoppedAt := some SearchStop.missingCriteria
      outcome := CommandOutcome.fatal criteriaMessage }
  else
    match taggedParams flags assembleTagValue with
    | Except.error err =>
      { helpShown := false, searches := [], printed := []
        stoppedAt := some SearchStop.tag, outcome := CommandOutcome.fatal err }
    | Except.ok params5 =>
      match reportedParams flags params5 with
      | none =>
        { helpShown := false, searches := [], printed := []
          stoppedAt := some SearchStop.reporting
          outcome := CommandOutcome.fatal reportingMessage }
      | some params => sendSearch flags params search structToMap printError

/-! ## Profile list command (`internal/credentials/command.go`) -/

/-- The constant `defaultProfileString`. -/
def defaultProfileString : String := " (default)"

/-- The constant `hiddenKeyString`. -/
def hiddenKeyString : String := "<hidden>"

/-- The fields of `configuration.FieldDefinition` that the list command
reads. -/
structure FieldDefinition where
  Key : String
  Sensitive : Bool
  deriving DecidableEq, Repr

/-- The configuration as the list command reads it: the result of
`GetProfileNames()`, of `GetActiveProfileName()`, the field definitions that
`VisitAllProfileFields` hands to its callback for a profile, in order, and the
result of `GetProfileString` for a profile and a key. -/
structure ProfileConfiguration where
  profileNames : List String
  activeProfileName : String
  profileFields : String → List FieldDefinition
  profileString : String → String → String

/-- Assignment `m[key] = value` on a Go map, kept as a list of entries. -/
def mapSet (key value : String) : List (String × String) → List (String × String)
  | [] => [(key, value)]
  | (k, v) :: rest => if k = key then (key, value) :: rest else (k, v) :: mapSet key value rest

/-- Look-up `m[key]` on a Go map kept as a list of entries. -/
def mapGet (key : String) : List (String × String) → Option String
  | [] => none
  | (k, v) :: rest => if k = key then some v else mapGet key rest

/-- The value the callback of `cmdList` lists for a field definition; `sprint`
is `text.FgHiBlack.Sprint`. -/
def listedValue (showKeys : Bool) (sprint : String → String) (cfg : ProfileConfiguration)
    (p : String) (d : FieldDefinition) : String :=
  if !showKeys && d.Sensitive then sprint hiddenKeyString else cfg.profileString p d.Key

/-- The map `out` that `cmdList` builds for one profile. -/
def profileRow (showKeys : Bool) (sprint : String → String) (cfg : ProfileConfiguration)
    (p : String) : List (String × String) :=
  let name := if p = cfg.activeProfileName then p ++ sprint defaultProfileString else p
  (cfg.profileFields p).foldl
    (fun out d => mapSet d.Key (listedValue showKeys sprint cfg p d) out)
    (mapSet "Name" name [])

/-- The `Run` function of `cmdList`: the list handed to `output.Text`. -/
def cmdList.Run (showKeys : Bool) (sprint : String → String) (cfg : ProfileConfiguration) :
    List (List (String × String)) :=
  cfg.profileNames.map (profileRow showKeys sprint cfg)

/-- Two configurations that differ at most in the stored values of sensitive
fields: same profile names, same active profile, same field definitions, and
the same stored string for every field definition that is not sensitive. -/
def sameButSensitive (a b : ProfileConfiguration) : Prop :=
  a.profileNames = b.profileNames ∧ a.activeProfileName = b.activeProfileName
    ∧ (∀ p, a.profileFields p = b.profileFields p)
    ∧ (∀ p d, d ∈ a.profileFields p → d.Sensitive = false →
        a.profileString p d.Key = b.profileString p d.Key)

/-! ## Sample runs -/

/-- An install status over the given recipe entries and link configuration, no
subscriber attached. -/
def statusWith (entries : List RecipeStatus) (config : SuccessLinkConfig) : InstallStatus :=
  { Statuses := entries
    EntityGUIDs := (entries.map (fun r => r.EntityGUID)).filter (fun g => g != "")
    successLinkConfig := config
    statusSubscriber := []
    Complete := true
    Canceled := false
    loggedErrors := 0 }

/-- A run in which the infrastructure agent failed and logging was skipped. -/
def sampleNoneInstalled : InstallStatus :=
  statusWith
    [{ Name := "infrastructure-agent-installer", Status := RecipeStatusType.FAILED,
       EntityGUID := "" },
     { Name := "logs-integration", Status := RecipeStatusType.SKIPPED, EntityGUID := "" }]
    { LinkType := "explorer", Filter := "myFilter" }

/-- A run in which the infrastructure agent was installed, with the given link
configuration. -/
def sampleInstalled (config : SuccessLinkConfig) : InstallStatus :=
  statusWith
    [{ Name := "infrastructure-agent-installer", Status := RecipeStatusType.INSTALLED,
       EntityGUID := "MTIzNDV8SU5GUkF8TkF8MQ" },
     { Name := "logs-integration", Status := RecipeStatusType.FAILED, EntityGUID := "" }]
    config

/-- The flag variables at their defaults. -/
def defaultFlags : CommandFlags :=
  { assumeYes := false
    localRecipes := ""
    recipeNames := []
    recipePaths := []
    skipIntegrations := false
    skipLoggingInstall := false
    skipApm := false
    skipInfra := false
    testMode := false
    debug := false
    trace := false }

/-- A recipe of the given name with a validation query and nothing else. -/
def sampleRecipe (name : String) : OpenInstallationRecipe :=
  { Name := name
    DisplayName := name
    PreInstall := { Info := "", RequireAtDiscovery := "" }
    PostInstall := { Info := "" }
    ValidationNRQL := "testNrql"
    LogMatch := []
    Install := "" }

/-- A status event for the recipe of the given name, without entity GUID. -/
def sampleEvent (name : String) : RecipeStatusEvent :=
  { Recipe := sampleRecipe name, EntityGUID := "" }

/-- A run on the infrastructure agent: made available, installing, failed. -/
def sampleFailedRun : List LifecycleEvent :=
  [LifecycleEvent.RecipeAvailable (sampleRecipe "infrastructure-agent-installer"),
   LifecycleEvent.RecipeInstalling (sampleEvent "infrastructure-agent-installer"),
   LifecycleEvent.RecipeFailed (sampleEvent "infrastructure-agent-installer")]

/-- Events that arrive after the failure and ask for other statuses. -/
def sampleLateEvents : List LifecycleEvent :=
  [LifecycleEvent.RecipeInstalled (sampleEvent "infrastructure-agent-installer"),
   LifecycleEvent.RecipesAvailable [sampleRecipe "infrastructure-agent-installer"],
   LifecycleEvent.RecipeInstalling (sampleEvent "infrastructure-agent-installer"),
   LifecycleEvent.InstallCanceled]

/-- The calls of the reporter test `writeStatus`, in order. -/
def sampleReporterCalls : List LifecycleEvent :=
  [LifecycleEvent.RecipesAvailable
     [sampleRecipe "infrastructure-agent-installer", sampleRecipe "logs-integration"],
   LifecycleEvent.RecipesSelected
     [sampleRecipe "infrastructure-agent-installer", sampleRecipe "logs-integration"],
   LifecycleEvent.DiscoveryComplete { OS := "", Processes := [] },
   LifecycleEvent.RecipeAvailable (sampleRecipe "infrastructure-agent-installer"),
   LifecycleEvent.RecipeAvailable (sampleRecipe "logs-integration"),
   LifecycleEvent.InstallComplete,
   LifecycleEvent.InstallCanceled]

/-- A query client that answers `emptyResults` to every query. -/
def sampleSilentClient : NRDBClient :=
  { answer := fun _ => Except.ok emptyResults, Attempts := 0 }

/-- A profile of account 12345 in the given region. -/
def sampleProfile (region : String) : Profile :=
  { Region := region, AccountID := 12345 }

/-- A run of a document command dispatches on the scope: the account-scoped
call is made exactly when the lower-cased scope is `account`, the
entity-scoped one exactly when it is `entity`, the user-scoped one exactly
when it is `user`, and for any other scope no call is made and the run ends
in the fatal scope message. -/
def dispatchesByScope (flags : DocumentFlags) (operation : DocumentOperation)
    (document : Option (Option (List (String × JsonValue)))) (run : DocumentRun) : Prop :=
  (toLower flags.scope = "account" ↔
      run.calls = [documentCall flags operation document (DocumentScope.account flags.accountID)])
    ∧ (toLower flags.scope = "entity" ↔
      run.calls = [documentCall flags operation document (DocumentScope.entity flags.entityGUID)])
    ∧ (toLower flags.scope = "user" ↔
      run.calls = [documentCall flags operation document DocumentScope.user])
    ∧ (toLower flags.scope ≠ "account" → toLower flags.scope ≠ "entity" →
      toLower flags.scope ≠ "user" →
      run.calls = [] ∧ run.outcome = CommandOutcome.fatal scopeMessage)

/-- The flag variables of a document command for a collection `myCol` and a
document `myDoc`, with the given scope and document text, account ID and
entity GUID left at their defaults. -/
def sampleDocumentFlags (scope document : String) : DocumentFlags :=
  { DocumentFlags.defaults with
    packageID := "b0dee5a1-e809-4d6f-bd3c-0682cd079612"
    collection := "myCol"
    documentID := "myDoc"
    document := document
    scope := scope }

/-- A NerdStorage client that answers every call with an empty document. -/
def sampleRespond : NerdStorageCall → Except String String :=
  fun _ => Except.ok ""

/-- A profile of account 12345 that has an Insights insert key. -/
def samplePostProfile : Profile :=
  { Region := "US", AccountID := 12345, InsightsInsertKey := "NRII-sample" }

/-- The flag variables of the search command with the given name, tag and
reporting value, everything else empty. -/
def sampleSearchFlags (name tag reporting : String) : SearchFlags :=
  { entityName := name
    entityType := ""
    entityAlertSeverity := ""
    entityReporting := reporting
    entityDomain := ""
    entityTag := tag
    entityFields := [] }

/-- A tag helper that splits nothing: the whole text is the key. -/
def sampleAssembleTagValue : String → Except String (String × String) :=
  fun tag => Except.ok (tag, "")

/-- A search that finds no entity. -/
def sampleSearch : EntitySearchQueryBuilder → Except String (List String) :=
  fun _ => Except.ok []

/-- The field definitions of the sample configurations: a region that is
shown and an API key that is sensitive. -/
def sampleFields : List FieldDefinition :=
  [{ Key := "region", Sensitive := false }, { Key := "apiKey", Sensitive := true }]

/-- A configuration with one profile, `default`, active, whose API key is the
given text. -/
def sampleConfiguration (apiKey : String) : ProfileConfiguration :=
  { profileNames := ["default"]
    activeProfileName := "default"
    profileFields := fun _ => sampleFields
    profileString := fun _ key => if key = "region" then "US" else apiKey }

/-- A styling that wraps a text in brackets. -/
def sampleSprint : String → String :=
  fun text => "[" ++ text ++ "]"

/-- An install status with its success-link type replaced. -/
def InstallStatus.withLinkType (s : InstallStatus) (linkType : String) : InstallStatus :=
  { s with successLinkConfig := { s.successLinkConfig with LinkType := linkType } }

/-- A run in which only the logs integration was installed: the host-level
recipe has no entry, so the host entity GUID is empty. -/
def sampleInstalledNoGUID (config : SuccessLinkConfig) : InstallStatus :=
  statusWith
    [{ Name := "logs-integration", Status := RecipeStatusType.INSTALLED, EntityGUID := "" }]
    config

/-- A run of a document command hands its request to the client and lets the
client decide: the call `c` is the one call made, an error of the client ends
the run in `log.Fatal` with that error, and an answer of the client lets the
run return (once the answer is printed, for a get; `printError` is the error
of that printing). -/
def delegatesTo (c : NerdStorageCall) (respond : NerdStorageCall → Except String String)
    (printError : String → Option String) (run : DocumentRun) : Prop :=
  run.calls = [c]
    ∧ (∀ err, respond c = Except.error err → run.outcome = CommandOutcome.fatal err)
    ∧ (∀ document, respond c = Except.ok document → printError document = none →
        run.outcome = CommandOutcome.returned)

/-- A NerdStorage client that refuses an account-scoped call without account
ID and an entity-scoped call without entity GUID, and answers every other call
with an empty document. -/
def sampleStrictRespond : NerdStorageCall → Except String String :=
  fun c =>
    match c.scope with
    | DocumentScope.account accountID =>
      if accountID = 0 then Except.error "account ID is required when using account scope"
      else Except.ok ""
    | DocumentScope.entity entityGUID =>
      if entityGUID = "" then Except.error "entity GUID is required when using entity scope"
      else Except.ok ""
    | DocumentScope.user => Except.ok ""

/-- An events client that refuses every event. -/
def sampleRefuseEvent : Int → String → Option String :=
  fun _ _ => some "failed creating custom event"

/-! ## Lemmas on the library helpers -/

theorem equalFoldRunes_length :
    ∀ (s t : List Char), equalFoldRunes s t = true → s.length = t.length
  | [], [], _ => rfl
  | [], _ :: _, h => by simp [equalFoldRunes] at h
  | _ :: _, [], h => by simp [equalFoldRunes] at h
  | a :: s, b :: t, h => by
    simp only [equalFoldRunes, Bool.and_eq_true] at h
    simp [equalFoldRunes_length s t h.2]

theorem equalFold_EU_not_staging (r : String) (h : equalFold r regionEU = true) :
    equalFold r regionStaging = false := by
  cases hs : equalFold r regionStaging with
  | false => rfl
  | true =>
    have h1 := equalFoldRunes_length _ _ h
    have h2 := equalFoldRunes_length _ _ hs
    rw [h1] at h2
    exact absurd h2 (by decide)

theorem containsText_middle (a t b : String) : containsText (a ++ t ++ b) t :=
  ⟨a, b, rfl⟩

theorem containsText_end (a t : String) : containsText (a ++ t) t :=
  ⟨a, "", by simp⟩

theorem not_containsText_of_not_mem (s t : String) (c : Char) (hc : c ∈ t.data)
    (hs : c ∉ s.data) : ¬ containsText s t := by
  rintro ⟨before, after, h⟩
  apply hs
  rw [h]
  simp [String.data_append, hc]

/-! ## Success link generator: theorems -/

/-- C1: when no recipe of the install status is `INSTALLED`,
`GenerateRedirectURL` returns the empty string, whatever the link type, the
filter, the host entity GUID and the active profile (or its absence) are. -/
theorem C1_no_installed_recipe_empty_url (defaultProfile : Option Profile)
    (status : InstallStatus)
    (hNone : status.hasAnyRecipeStatus RecipeStatusType.INSTALLED = false) :
    GenerateRedirectURL defaultProfile status = some "" := by
  simp [GenerateRedirectURL, hNone]

/-- C1 at a run with one failed and one skipped recipe, explorer link type. -/
theorem C1_no_installed_recipe_empty_url_witness :
    sampleNoneInstalled.hasAnyRecipeStatus RecipeStatusType.INSTALLED = false
      ∧ GenerateRedirectURL (some (sampleProfile "EU")) sampleNoneInstalled = some "" :=
  ⟨by decide,
    C1_no_installed_recipe_empty_url (some (sampleProfile "EU")) sampleNoneInstalled (by decide)⟩

/-- C2: with an `INSTALLED` recipe, a link type that `EqualFold`s to
`explorer` (the string `explorer` itself in particular) and an active profile,
`GenerateRedirectURL` returns exactly
`https://<host>/launcher/nr1-core.explorer?platform[filters]=<base64 filter>&platform[accountId]=<account ID>`,
so the URL contains the base64 of the filter and the decimal account ID; the
base64 of `myFilter` is `bXlGaWx0ZXI=` and account 12345 is written `12345`. -/
theorem C2_explorer_link_exact (p : Profile) (status : InstallStatus)
    (hInstalled : status.hasAnyRecipeStatus RecipeStatusType.INSTALLED = true)
    (hType : equalFold status.successLinkConfig.LinkType "explorer" = true) :
    GenerateRedirectURL (some p) status
        = some ("https://" ++ nrPlatformHostname (some p)
            ++ "/launcher/nr1-core.explorer?platform[filters]="
            ++ Base64Encode status.successLinkConfig.Filter
            ++ "&platform[accountId]=" ++ formatInt p.AccountID)
      ∧ (∃ url, GenerateRedirectURL (some p) status = some url
          ∧ containsText url (Base64Encode status.successLinkConfig.Filter)
          ∧ containsText url (formatInt p.AccountID))
      ∧ Base64Encode "myFilter" = "bXlGaWx0ZXI="
      ∧ formatInt 12345 = "12345" := by
  have hurl : GenerateRedirectURL (some p) status
        = some ("https://" ++ nrPlatformHostname (some p)
            ++ "/launcher/nr1-core.explorer?platform[filters]="
            ++ Base64Encode status.successLinkConfig.Filter
            ++ "&platform[accountId]=" ++ formatInt p.AccountID) := by
    simp [GenerateRedirectURL, hInstalled, hType, generateExplorerLink]
  refine ⟨hurl, ⟨_, hurl, ?_, containsText_end _ _⟩, by decide, by decide⟩
  rw [String.append_assoc _ "&platform[accountId]=" _]
  exact containsText_middle _ _ _

/-- C2 at filter `myFilter`, account 12345, US region: the URL in full. -/
theorem C2_explorer_link_exact_witness :
    GenerateRedirectURL (some (sampleProfile "US"))
        (sampleInstalled { LinkType := "explorer", Filter := "myFilter" })
      = some "https://one.newrelic.com/launcher/nr1-core.explorer?platform[filters]=bXlGaWx0ZXI=&platform[accountId]=12345" :=
  (C2_explorer_link_exact (sampleProfile "US")
    (sampleInstalled { LinkType := "explorer", Filter := "myFilter" })
    (by decide) (by decide)).1.trans (by decide)

/-- C3: with an `INSTALLED` recipe and a link type that does not `EqualFold` to
`explorer` (the empty type included), `GenerateRedirectURL` returns exactly
`https://<host>/redirect/entity/<HostEntityGUID()>`, with or without an active
profile.  The URL contains the host entity GUID; the text in front of the GUID
holds neither the filter parameter nor the account ID parameter, so that the
URL of a GUID without bracket holds neither, and the URL stays the same when
the filter and the account ID change. -/
theorem C3_entity_link_exact (defaultProfile : Option Profile) (status : InstallStatus)
    (hInstalled : status.hasAnyRecipeStatus RecipeStatusType.INSTALLED = true)
    (hType : equalFold status.successLinkConfig.LinkType "explorer" = false) :
    GenerateRedirectURL defaultProfile status
        = some ("https://" ++ nrPlatformHostname defaultProfile ++ "/redirect/entity/"
            ++ status.HostEntityGUID)
      ∧ (∃ url, GenerateRedirectURL defaultProfile status = some url
          ∧ containsText url status.HostEntityGUID)
      ∧ ¬ containsText ("https://" ++ nrPlatformHostname defaultProfile ++ "/redirect/entity/")
          filtersParameter
      ∧ ¬ containsText ("https://" ++ nrPlatformHostname defaultProfile ++ "/redirect/entity/")
          accountIdParameter
      ∧ ('[' ∉ status.HostEntityGUID.data →
          ¬ containsText ("https://" ++ nrPlatformHostname defaultProfile ++ "/redirect/entity/"
              ++ status.HostEntityGUID) filtersParameter
            ∧ ¬ containsText ("https://" ++ nrPlatformHostname defaultProfile
              ++ "/redirect/entity/" ++ status.HostEntityGUID) accountIdParameter)
      ∧ (∀ (filter : String) (accountID : Int),
          GenerateRedirectURL (defaultProfile.map (fun q => { q with AccountID := accountID }))
              { status with
                successLinkConfig := { status.successLinkConfig with Filter := filter } }
            = GenerateRedirectURL defaultProfile status) := by
  have hurl : GenerateRedirectURL defaultProfile status
        = some ("https://" ++ nrPlatformHostname defaultProfile ++ "/redirect/entity/"
            ++ status.HostEntityGUID) := by
    simp [GenerateRedirectURL, hInstalled, hType, generateEntityLink]
  have hfixed : '[' ∉ ("https://" ++ nrPlatformHostname defaultProfile
      ++ "/redirect/entity/").data := by
    cases defaultProfile with
    | none => decide
    | some q =>
      simp only [nrPlatformHostname]
      split_ifs <;> decide
  refine ⟨hurl, ⟨_, hurl, containsText_end _ _⟩,
    not_containsText_of_not_mem _ _ '[' (by decide) hfixed,
    not_containsText_of_not_mem _ _ '[' (by decide) hfixed, ?_, ?_⟩
  · intro hguid
    have hwhole : '[' ∉ ("https://" ++ nrPlatformHostname defaultProfile
        ++ "/redirect/entity/" ++ status.HostEntityGUID).data := by
      rw [String.data_append, List.mem_append]
      exact fun h => h.elim hfixed hguid
    exact ⟨not_containsText_of_not_mem _ _ '[' (by decide) hwhole,
      not_containsText_of_not_mem _ _ '[' (by decide) hwhole⟩
  intro filter accountID
  have hInstalled2 : InstallStatus.hasAnyRecipeStatus
      { status with successLinkConfig := { status.successLinkConfig with Filter := filter } }
      RecipeStatusType.INSTALLED = true := hInstalled
  have hhost : nrPlatformHostname (defaultProfile.map (fun q => { q with AccountID := accountID }))
      = nrPlatformHostname defaultProfile := by
    cases defaultProfile <;> rfl
  rw [hurl]
  simp [GenerateRedirectURL, hInstalled2, hType, generateEntityLink, hhost,
    InstallStatus.HostEntityGUID]

/-- C3 at the empty (default) link type with an EU profile: the URL in full,
which holds no filter parameter. -/
theorem C3_entity_link_exact_witness :
    GenerateRedirectURL (some (sampleProfile "eu"))
        (sampleInstalled { LinkType := "", Filter := "myFilter" })
      = some "https://one.eu.newrelic.com/redirect/entity/MTIzNDV8SU5GUkF8TkF8MQ"
      ∧ ¬ containsText ("https://" ++ nrPlatformHostname (some (sampleProfile "eu"))
          ++ "/redirect/entity/"
          ++ (sampleInstalled { LinkType := "", Filter := "myFilter" }).HostEntityGUID)
          filtersParameter :=
  ⟨(C3_entity_link_exact (some (sampleProfile "eu"))
      (sampleInstalled { LinkType := "", Filter := "myFilter" })
      (by decide) (by decide)).1.trans (by decide),
    ((C3_entity_link_exact (some (sampleProfile "eu"))
      (sampleInstalled { LinkType := "", Filter := "myFilter" })
      (by decide) (by decide)).2.2.2.2.1 (by decide)).1⟩

/-- C4: `nrPlatformHostname` returns `one.newrelic.com` without a default
profile, `staging-one.newrelic.com` when the region `EqualFold`s to the staging
region name, `one.eu.newrelic.com` when it `EqualFold`s to the EU region name,
and `one.newrelic.com` for every other region; the result is always one of the
three fixed hostnames. -/
theorem C4_platform_hostname_by_region :
    nrPlatformHostname none = "one.newrelic.com"
      ∧ (∀ p : Profile, equalFold p.Region regionStaging = true →
          nrPlatformHostname (some p) = "staging-one.newrelic.com")
      ∧ (∀ p : Profile, equalFold p.Region regionEU = true →
          nrPlatformHostname (some p) = "one.eu.newrelic.com")
      ∧ (∀ p : Profile, equalFold p.Region regionStaging = false →
          equalFold p.Region regionEU = false →
          nrPlatformHostname (some p) = "one.newrelic.com")
      ∧ (∀ defaultProfile : Option Profile,
          nrPlatformHostname defaultProfile = "staging-one.newrelic.com"
            ∨ nrPlatformHostname defaultProfile = "one.newrelic.com"
            ∨ nrPlatformHostname defaultProfile = "one.eu.newrelic.com") := by
  refine ⟨rfl, ?_, ?_, ?_, ?_⟩
  · intro p h
    simp [nrPlatformHostname, h, nrPlatformHostnames]
  · intro p h
    simp [nrPlatformHostname, h, equalFold_EU_not_staging p.Region h, nrPlatformHostnames]
  · intro p h1 h2
    simp [nrPlatformHostname, h1, h2, nrPlatformHostnames]
  · intro defaultProfile
    cases defaultProfile with
    | none => exact Or.inr (Or.inl rfl)
    | some p =>
      simp only [nrPlatformHostname]
      split_ifs
      · exact Or.inl rfl
      · exact Or.inr (Or.inr rfl)
      · exact Or.inr (Or.inl rfl)

/-- C4 at the regions `STAGING`, `eu`, the empty region and an unknown one. -/
theorem C4_platform_hostname_by_region_witness :
    nrPlatformHostname (some (sampleProfile "STAGING")) = "staging-one.newrelic.com"
      ∧ nrPlatformHostname (some (sampleProfile "eu")) = "one.eu.newrelic.com"
      ∧ nrPlatformHostname (some (sampleProfile "")) = "one.newrelic.com"
      ∧ nrPlatformHostname (some (sampleProfile "moon")) = "one.newrelic.com" :=
  ⟨C4_platform_hostname_by_region.2.1 (sampleProfile "STAGING") (by decide),
    C4_platform_hostname_by_region.2.2.1 (sampleProfile "eu") (by decide),
    C4_platform_hostname_by_region.2.2.2.1 (sampleProfile "") (by decide) (by decide),
    C4_platform_hostname_by_region.2.2.2.1 (sampleProfile "moon") (by decide) (by decide)⟩

/-- C5, the code at the failing input: with an `INSTALLED` recipe, the link
type `explorer` and no active profile, `GenerateRedirectURL` returns no URL:
`generateExplorerLink` reads the account ID through the nil profile and
panics.  With any other link type the URL comes back with the US host. -/
theorem C5_explorer_link_without_profile_panics :
    GenerateRedirectURL none (sampleInstalled { LinkType := "explorer", Filter := "myFilter" })
        = none
      ∧ GenerateRedirectURL none (sampleInstalled { LinkType := "entity", Filter := "myFilter" })
        = some "https://one.newrelic.com/redirect/entity/MTIzNDV8SU5GUkF8TkF8MQ" := by
  constructor <;> decide

/-! ## Install command: theorems -/

/-- C6: in the install command with a non-nil profile, the installer is run;
when `Install` returns `ErrInterrupt` the command returns and no fatal message
is printed; when it returns any other error the command ends in `log.Fatalf`
with the "We encountered an error during the installation" message built from
that error; when it returns nil the command returns. -/
theorem C6_install_command_outcomes (flags : CommandFlags) (p : Profile)
    (install : InstallerContext → Option InstallError) :
    (Command.Run flags (some p) install).installRan = true
      ∧ (install flags.installerContext = some InstallError.ErrInterrupt →
          (Command.Run flags (some p) install).outcome = CommandOutcome.returned)
      ∧ (∀ msg : String, install flags.installerContext = some (InstallError.other msg) →
          (Command.Run flags (some p) install).outcome
            = CommandOutcome.fatal ("We encountered an error during the installation: " ++ msg
                ++ ". If this problem persists please visit the documentation and support page for additional help here: https://one.newrelic.com/-/06vjAeZLKjP"))
      ∧ (install flags.installerContext = none →
          (Command.Run flags (some p) install).outcome = CommandOutcome.returned) := by
  refine ⟨?_, ?_, ?_, ?_⟩
  · simp only [Command.Run, assertProfileIsValid]
    cases h : install flags.installerContext with
    | none => rfl
    | some err => cases err <;> rfl
  · intro h
    simp [Command.Run, assertProfileIsValid, h]
  · intro msg h
    simp [Command.Run, assertProfileIsValid, h, installFailureMessage]
  · intro h
    simp [Command.Run, assertProfileIsValid, h]

/-- C6 at three installers: interrupted, failing with `boom`, succeeding. -/
theorem C6_install_command_outcomes_witness :
    (Command.Run defaultFlags (some (sampleProfile "US"))
        (fun _ => some InstallError.ErrInterrupt)).outcome = CommandOutcome.returned
      ∧ (Command.Run defaultFlags (some (sampleProfile "US"))
        (fun _ => some (InstallError.other "boom"))).outcome
          = CommandOutcome.fatal "We encountered an error during the installation: boom. If this problem persists please visit the documentation and support page for additional help here: https://one.newrelic.com/-/06vjAeZLKjP"
      ∧ (Command.Run defaultFlags (some (sampleProfile "US")) (fun _ => none)).outcome
          = CommandOutcome.returned :=
  ⟨(C6_install_command_outcomes defaultFlags (sampleProfile "US")
      (fun _ => some InstallError.ErrInterrupt)).2.1 rfl,
    ((C6_install_command_outcomes defaultFlags (sampleProfile "US")
      (fun _ => some (InstallError.other "boom"))).2.2.1 "boom" rfl).trans rfl,
    (C6_install_command_outcomes defaultFlags (sampleProfile "US") (fun _ => none)).2.2.2 rfl⟩

/-! ## Install status aggregator: lemmas -/

theorem statusIn_setStatus (name guid : String) (next : RecipeStatusType) (other : String) :
    ∀ entries : List RecipeStatus,
      statusIn other (setStatus name guid next entries)
        = if other = name then some next else statusIn other entries
  | [] => by
    by_cases h : other = name
    · simp [setStatus, statusIn, h]
    · simp [setStatus, statusIn, h, Ne.symm h]
  | r :: rest => by
    by_cases hr : r.Name = name
    · by_cases h : other = name
      · simp [setStatus, statusIn, hr, h]
      · simp [setStatus, statusIn, hr, h, Ne.symm h]
    · by_cases h : other = name
      · subst h
        simp [setStatus, statusIn, hr, statusIn_setStatus other guid next other rest]
      · simp [setStatus, statusIn, hr, h, statusIn_setStatus name guid next other rest]

/-- What one validated transition does to the status of any recipe: nothing, or
the requested status, and then the transition was allowed. -/
theorem statusOf_withRecipeEvent (s : InstallStatus) (name guid : String)
    (next : RecipeStatusType) (other : String) :
    (s.withRecipeEvent name guid next).statusOf other = s.statusOf other
      ∨ ((s.withRecipeEvent name guid next).statusOf other = some next
          ∧ transitionAllowed (s.statusOf other) next = true) := by
  unfold InstallStatus.withRecipeEvent
  by_cases hAllowed : transitionAllowed (s.statusOf name) next = true
  · rw [if_pos hAllowed]
    by_cases h : other = name
    · right
      subst h
      exact ⟨by simp [InstallStatus.statusOf, statusIn_setStatus], hAllowed⟩
    · left
      simp [InstallStatus.statusOf, statusIn_setStatus, h]
  · rw [if_neg hAllowed]
    exact Or.inl rfl

/-- The same for a list of recipes that all ask for one status. -/
theorem statusOf_foldl_withRecipeEvent (next : RecipeStatusType) (other : String)
    (s : InstallStatus) :
    ∀ (recipes : List OpenInstallationRecipe) (acc : InstallStatus),
      (acc.statusOf other = s.statusOf other
        ∨ (acc.statusOf other = some next ∧ transitionAllowed (s.statusOf other) next = true)) →
      ((recipes.foldl (fun a r => a.withRecipeEvent r.Name "" next) acc).statusOf other
          = s.statusOf other
        ∨ ((recipes.foldl (fun a r => a.withRecipeEvent r.Name "" next) acc).statusOf other
            = some next ∧ transitionAllowed (s.statusOf other) next = true))
  | [], _, h => h
  | r :: rest, acc, h => by
    apply statusOf_foldl_withRecipeEvent next other s rest (acc.withRecipeEvent r.Name "" next)
    rcases statusOf_withRecipeEvent acc r.Name "" next other with hsame | ⟨hnew, hallowed⟩
    · rw [hsame]
      exact h
    · rcases h with h | ⟨h, hs⟩
      · rw [h] at hallowed
        exact Or.inr ⟨hnew, hallowed⟩
      · exact Or.inr ⟨hnew, hs⟩

/-- Every entry point leaves the status of a recipe alone or moves it by an
allowed transition. -/
theorem statusOf_applyEvent (s : InstallStatus) (e : LifecycleEvent) (other : String) :
    (s.applyEvent e).statusOf other = s.statusOf other
      ∨ ∃ next, (s.applyEvent e).statusOf other = some next
          ∧ transitionAllowed (s.statusOf other) next = true := by
  cases e with
  | RecipesAvailable recipes =>
    rcases statusOf_foldl_withRecipeEvent RecipeStatusType.AVAILABLE other s recipes s
      (Or.inl rfl) with h | h
    · exact Or.inl h
    · exact Or.inr ⟨_, h⟩
  | RecipesSelected recipes =>
    rcases statusOf_foldl_withRecipeEvent RecipeStatusType.SELECTED other s recipes s
      (Or.inl rfl) with h | h
    · exact Or.inl h
    · exact Or.inr ⟨_, h⟩
  | DiscoveryComplete manifest => exact Or.inl rfl
  | RecipeAvailable r =>
    rcases statusOf_withRecipeEvent s r.Name "" RecipeStatusType.AVAILABLE other with h | h
    · exact Or.inl h
    · exact Or.inr ⟨_, h⟩
  | RecipeRecommended ev =>
    rcases statusOf_withRecipeEvent s ev.Recipe.Name ev.EntityGUID
      RecipeStatusType.RECOMMENDED other with h | h
    · exact Or.inl h
    · exact Or.inr ⟨_, h⟩
  | RecipeInstalling ev =>
    rcases statusOf_withRecipeEvent s ev.Recipe.Name ev.EntityGUID
      RecipeStatusType.INSTALLING other with h | h
    · exact Or.inl h
    · exact Or.inr ⟨_, h⟩
  | RecipeInstalled ev =>
    rcases statusOf_withRecipeEvent s ev.Recipe.Name ev.EntityGUID
      RecipeStatusType.INSTALLED other with h | h
    · exact Or.inl h
    · exact Or.inr ⟨_, h⟩
  | RecipeFailed ev =>
    rcases statusOf_withRecipeEvent s ev.Recipe.Name ev.EntityGUID
      RecipeStatusType.FAILED other with h | h
    · exact Or.inl h
    · exact Or.inr ⟨_, h⟩
  | RecipeSkipped ev =>
    rcases statusOf_withRecipeEvent s ev.Recipe.Name ev.EntityGUID
      RecipeStatusType.SKIPPED other with h | h
    · exact Or.inl h
    · exact Or.inr ⟨_, h⟩
  | InstallComplete => exact Or.inl rfl
  | InstallCanceled => exact Or.inl rfl

theorem statusOf_fire (s : InstallStatus) (e : LifecycleEvent) (other : String) :
    (s.fire e).statusOf other = (s.applyEvent e).statusOf other := rfl

theorem transitionAllowed_terminal (t next : RecipeStatusType) (ht : t.isTerminal = true) :
    transitionAllowed (some t) next = false := by
  simp [transitionAllowed, ht]

theorem transitionAllowed_installing (current : Option RecipeStatusType)
    (h : transitionAllowed current RecipeStatusType.INSTALLING = true) :
    current = some RecipeStatusType.AVAILABLE ∨ current = some RecipeStatusType.RECOMMENDED
      ∨ current = some RecipeStatusType.SELECTED := by
  cases current with
  | none => simp [transitionAllowed] at h
  | some c => cases c <;> simp_all [transitionAllowed, RecipeStatusType.isTerminal,
      RecipeStatusType.rank]

theorem fire_keeps_terminal (s : InstallStatus) (e : LifecycleEvent) (name : String)
    (t : RecipeStatusType) (ht : t.isTerminal = true) (h : s.statusOf name = some t) :
    (s.fire e).statusOf name = some t := by
  rw [statusOf_fire]
  rcases statusOf_applyEvent s e name with hsame | ⟨next, _, hallowed⟩
  · rw [hsame, h]
  · rw [h, transitionAllowed_terminal t next ht] at hallowed
    exact absurd hallowed (by decide)

theorem fireAll_keeps_terminal (name : String) (t : RecipeStatusType)
    (ht : t.isTerminal = true) :
    ∀ (events : List LifecycleEvent) (s : InstallStatus), s.statusOf name = some t →
      (s.fireAll events).statusOf name = some t
  | [], _, h => h
  | e :: rest, s, h =>
    fireAll_keeps_terminal name t ht rest (s.fire e) (fire_keeps_terminal s e name t ht h)

theorem fireAll_append (s : InstallStatus) (before after : List LifecycleEvent) :
    s.fireAll (before ++ after) = (s.fireAll before).fireAll after := by
  simp [InstallStatus.fireAll, List.foldl_append]

/-! ## Install status aggregator: theorems -/

/-- C7: along every sequence of lifecycle events fired on the aggregator, a
recipe that is in a terminal status (`INSTALLED`, `FAILED`, `SKIPPED`,
`CANCELED`) after some events has that same status after any further events,
and an event that brings a recipe into `INSTALLING` found it `AVAILABLE`,
`RECOMMENDED` or `SELECTED`. -/
theorem C7_recipe_status_monotonic (s : InstallStatus) (before after : List LifecycleEvent)
    (e : LifecycleEvent) (name : String) :
    (∀ t : RecipeStatusType, t.isTerminal = true ↔
        (t = RecipeStatusType.INSTALLED ∨ t = RecipeStatusType.FAILED
          ∨ t = RecipeStatusType.SKIPPED ∨ t = RecipeStatusType.CANCELED))
      ∧ (∀ t : RecipeStatusType, t.isTerminal = true →
          (s.fireAll before).statusOf name = some t →
          (s.fireAll (before ++ after)).statusOf name = some t)
      ∧ (((s.fireAll before).fire e).statusOf name = some RecipeStatusType.INSTALLING →
          (s.fireAll before).statusOf name ≠ some RecipeStatusType.INSTALLING →
          ((s.fireAll before).statusOf name = some RecipeStatusType.AVAILABLE
            ∨ (s.fireAll before).statusOf name = some RecipeStatusType.RECOMMENDED
            ∨ (s.fireAll before).statusOf name = some RecipeStatusType.SELECTED)) := by
  refine ⟨?_, ?_, ?_⟩
  · intro t
    cases t <;> simp [RecipeStatusType.isTerminal]
  · intro t ht h
    rw [fireAll_append]
    exact fireAll_keeps_terminal name t ht after _ h
  · intro hnew hold
    rw [statusOf_fire] at hnew
    rcases statusOf_applyEvent (s.fireAll before) e name with hsame | ⟨next, hnext, hallowed⟩
    · rw [hsame] at hnew
      exact absurd hnew hold
    · rw [hnew] at hnext
      cases hnext
      exact transitionAllowed_installing _ hallowed

/-- C7 at a fresh aggregator: the infrastructure agent failed and stays
`FAILED` through later events that ask for `INSTALLED`, `AVAILABLE` and
`INSTALLING`; it had entered `INSTALLING` from `AVAILABLE`. -/
theorem C7_recipe_status_monotonic_witness :
    ((NewInstallStatus []).fireAll (sampleFailedRun ++ sampleLateEvents)).statusOf
        "infrastructure-agent-installer" = some RecipeStatusType.FAILED
      ∧ (((NewInstallStatus []).fireAll
            [LifecycleEvent.RecipeAvailable (sampleRecipe "infrastructure-agent-installer")]
          ).statusOf "infrastructure-agent-installer" = some RecipeStatusType.AVAILABLE
        ∨ ((NewInstallStatus []).fireAll
            [LifecycleEvent.RecipeAvailable (sampleRecipe "infrastructure-agent-installer")]
          ).statusOf "infrastructure-agent-installer" = some RecipeStatusType.RECOMMENDED
        ∨ ((NewInstallStatus []).fireAll
            [LifecycleEvent.RecipeAvailable (sampleRecipe "infrastructure-agent-installer")]
          ).statusOf "infrastructure-agent-installer" = some RecipeStatusType.SELECTED) :=
  ⟨(C7_recipe_status_monotonic (NewInstallStatus []) sampleFailedRun sampleLateEvents
      LifecycleEvent.InstallComplete "infrastructure-agent-installer").2.1
      RecipeStatusType.FAILED (by decide) (by decide),
    (C7_recipe_status_monotonic (NewInstallStatus [])
      [LifecycleEvent.RecipeAvailable (sampleRecipe "infrastructure-agent-installer")] []
      (LifecycleEvent.RecipeInstalling (sampleEvent "infrastructure-agent-installer"))
      "infrastructure-agent-installer").2.2 (by decide) (by decide)⟩

theorem withRecipeEvent_subscribers (s : InstallStatus) (name guid : String)
    (next : RecipeStatusType) :
    (s.withRecipeEvent name guid next).statusSubscriber = s.statusSubscriber := by
  unfold InstallStatus.withRecipeEvent
  split_ifs <;> rfl

theorem foldl_withRecipeEvent_subscribers (next : RecipeStatusType) :
    ∀ (recipes : List OpenInstallationRecipe) (acc : InstallStatus),
      (recipes.foldl (fun a r => a.withRecipeEvent r.Name "" next) acc).statusSubscriber
        = acc.statusSubscriber
  | [], _ => rfl
  | r :: rest, acc => by
    rw [List.foldl_cons, foldl_withRecipeEvent_subscribers next rest,
      withRecipeEvent_subscribers]

theorem applyEvent_subscribers (s : InstallStatus) (e : LifecycleEvent) :
    (s.applyEvent e).statusSubscriber = s.statusSubscriber := by
  cases e <;>
    simp [InstallStatus.applyEvent, withRecipeEvent_subscribers,
      foldl_withRecipeEvent_subscribers]

theorem notifySubscribers_delivers (e : LifecycleEvent) :
    ∀ subs : List StatusSubscriber,
      (notifySubscribers e subs).1 = subs.map (fun sub => sub.deliver e)
  | [] => rfl
  | sub :: rest => by
    simp [notifySubscribers, notifySubscribers_delivers e rest]

theorem fire_subscribers (s : InstallStatus) (e : LifecycleEvent) :
    (s.fire e).statusSubscriber = s.statusSubscriber.map (fun sub => sub.deliver e) := by
  simp [InstallStatus.fire, notifySubscribers_delivers, applyEvent_subscribers]

theorem fireAll_received :
    ∀ (events : List LifecycleEvent) (s : InstallStatus),
      (s.fireAll events).statusSubscriber.map (fun sub => sub.received)
        = s.statusSubscriber.map (fun sub => sub.received ++ events)
  | [], s => by simp [InstallStatus.fireAll]
  | e :: rest, s => by
    have h := fireAll_received rest (s.fire e)
    rw [fire_subscribers] at h
    simpa [InstallStatus.fireAll, StatusSubscriber.deliver, Function.comp_def] using h

theorem sameRecord_withRecipeEvent (a b : InstallStatus) (name guid : String)
    (next : RecipeStatusType) (h : sameRecord a b) :
    sameRecord (a.withRecipeEvent name guid next) (b.withRecipeEvent name guid next) := by
  obtain ⟨h1, h2, h3, h4, h5⟩ := h
  unfold InstallStatus.withRecipeEvent InstallStatus.statusOf
  rw [h1, h2]
  split_ifs <;> exact ⟨by simp [h1], by simp [h2], h3, h4, h5⟩

theorem sameRecord_foldl (next : RecipeStatusType) :
    ∀ (recipes : List OpenInstallationRecipe) (a b : InstallStatus), sameRecord a b →
      sameRecord (recipes.foldl (fun x r => x.withRecipeEvent r.Name "" next) a)
        (recipes.foldl (fun x r => x.withRecipeEvent r.Name "" next) b)
  | [], _, _, h => h
  | r :: rest, a, b, h =>
    sameRecord_foldl next rest _ _ (sameRecord_withRecipeEvent a b r.Name "" next h)

theorem sameRecord_applyEvent (a b : InstallStatus) (e : LifecycleEvent) (h : sameRecord a b) :
    sameRecord (a.applyEvent e) (b.applyEvent e) := by
  cases e with
  | RecipesAvailable recipes => exact sameRecord_foldl _ recipes a b h
  | RecipesSelected recipes => exact sameRecord_foldl _ recipes a b h
  | DiscoveryComplete manifest => exact h
  | RecipeAvailable r => exact sameRecord_withRecipeEvent a b _ _ _ h
  | RecipeRecommended ev => exact sameRecord_withRecipeEvent a b _ _ _ h
  | RecipeInstalling ev => exact sameRecord_withRecipeEvent a b _ _ _ h
  | RecipeInstalled ev => exact sameRecord_withRecipeEvent a b _ _ _ h
  | RecipeFailed ev => exact sameRecord_withRecipeEvent a b _ _ _ h
  | RecipeSkipped ev => exact sameRecord_withRecipeEvent a b _ _ _ h
  | InstallComplete => exact ⟨h.1, h.2.1, h.2.2.1, rfl, h.2.2.2.2⟩
  | InstallCanceled => exact ⟨h.1, h.2.1, h.2.2.1, h.2.2.2.1, rfl⟩

theorem sameRecord_fire (a b : InstallStatus) (e : LifecycleEvent) (h : sameRecord a b) :
    sameRecord (a.fire e) (b.applyEvent e) :=
  sameRecord_applyEvent a b e h

theorem sameRecord_fireAll :
    ∀ (events : List LifecycleEvent) (a b : InstallStatus), sameRecord a b →
      sameRecord (a.fireAll events) (b.applyAll events)
  | [], _, _, h => h
  | e :: rest, a, b, h => sameRecord_fireAll rest (a.fire e) (b.applyEvent e) (sameRecord_fire a b e h)

/-- C8: after any sequence of lifecycle events fired on the aggregator, every
registered subscriber has received, after what it had before, exactly the
fired events, each once and in firing order, whichever subscribers return
errors on whichever events; on a fresh aggregator with N subscribers each of
the N has received exactly the events.  The errors do not abort the run: the
number of subscribers is unchanged and the recorded statuses, entity GUIDs and
run flags are those that the transitions alone produce. -/
theorem C8_every_subscriber_receives_every_event (s : InstallStatus)
    (events : List LifecycleEvent) (behaviours : List (LifecycleEvent → Bool)) :
    (s.fireAll events).statusSubscriber.map (fun sub => sub.received)
        = s.statusSubscriber.map (fun sub => sub.received ++ events)
      ∧ ((NewInstallStatus (behaviours.map newSubscriber)).fireAll events).statusSubscriber.map
          (fun sub => sub.received) = List.replicate behaviours.length events
      ∧ (s.fireAll events).statusSubscriber.length = s.statusSubscriber.length
      ∧ sameRecord (s.fireAll events) (s.applyAll events) := by
  have hall := fireAll_received events s
  refine ⟨hall, ?_, ?_, sameRecord_fireAll events s s ⟨rfl, rfl, rfl, rfl, rfl⟩⟩
  · rw [fireAll_received]
    simp [NewInstallStatus, newSubscriber, Function.comp_def, List.map_const']
  · have := congrArg List.length hall
    simpa using this

/-! ## Install events reporter: theorems -/

theorem report_eq_call (c : MockInstalleventsClient) (status : InstallStatus)
    (e : LifecycleEvent) :
    InstallEventsReporter.report c status e = c.CreateInstallEvent := by
  cases e <;> rfl

theorem reportAll_count (status : InstallStatus) :
    ∀ (events : List LifecycleEvent) (c : MockInstalleventsClient),
      (InstallEventsReporter.reportAll c status events).1.CreateInstallEventCallCount
          = c.CreateInstallEventCallCount + events.length
        ∧ (InstallEventsReporter.reportAll c status events).2
          = List.replicate events.length c.CreateInstallEventErr
  | [], c => ⟨rfl, rfl⟩
  | e :: rest, c => by
    have h := reportAll_count status rest (InstallEventsReporter.report c status e).1
    rw [report_eq_call] at h
    simp only [InstallEventsReporter.reportAll, report_eq_call, List.length_cons,
      List.replicate_succ]
    refine ⟨?_, ?_⟩
    · rw [h.1]
      simp only [MockInstalleventsClient.CreateInstallEvent]
      omega
    · rw [h.2]
      rfl

/-- C9: on a client whose `CreateInstallEvent` succeeds, one call of any of the
eleven lifecycle methods of the reporter returns no error and raises the call
count of the client by exactly one; a sequence of k such calls returns no
error and raises the count by k, so that a new client stands at k. -/
theorem C9_reporter_one_call_per_event (c : MockInstalleventsClient) (status : InstallStatus)
    (hSucceeds : c.CreateInstallEventErr = none) :
    (∀ e : LifecycleEvent,
        (InstallEventsReporter.report c status e).2 = none
          ∧ (InstallEventsReporter.report c status e).1.CreateInstallEventCallCount
            = c.CreateInstallEventCallCount + 1)
      ∧ (∀ events : List LifecycleEvent,
        (InstallEventsReporter.reportAll c status events).1.CreateInstallEventCallCount
            = c.CreateInstallEventCallCount + events.length
          ∧ (InstallEventsReporter.reportAll c status events).2
            = List.replicate events.length none)
      ∧ (∀ events : List LifecycleEvent,
        (InstallEventsReporter.reportAll NewMockInstalleventsClient status
          events).1.CreateInstallEventCallCount = events.length) := by
  refine ⟨?_, ?_, ?_⟩
  · intro e
    rw [report_eq_call]
    exact ⟨hSucceeds, rfl⟩
  · intro events
    have h := reportAll_count status events c
    rw [hSucceeds] at h
    exact h
  · intro events
    have h := (reportAll_count status events NewMockInstalleventsClient).1
    simpa [NewMockInstalleventsClient] using h

/-- C9 at the calls of the reporter test: seven calls, count seven; and one
`RecipeFailed` call on a new client, count one, no error. -/
theorem C9_reporter_one_call_per_event_witness :
    (InstallEventsReporter.reportAll NewMockInstalleventsClient (NewInstallStatus [])
        sampleReporterCalls).1.CreateInstallEventCallCount = 7
      ∧ (InstallEventsReporter.report NewMockInstalleventsClient (NewInstallStatus [])
          (LifecycleEvent.RecipeFailed (sampleEvent ""))).2 = none
      ∧ (InstallEventsReporter.report NewMockInstalleventsClient (NewInstallStatus [])
          (LifecycleEvent.RecipeFailed (sampleEvent ""))).1.CreateInstallEventCallCount = 1 :=
  ⟨(C9_reporter_one_call_per_event NewMockInstalleventsClient (NewInstallStatus []) rfl).2.2
      sampleReporterCalls,
    ((C9_reporter_one_call_per_event NewMockInstalleventsClient (NewInstallStatus []) rfl).1
      (LifecycleEvent.RecipeFailed (sampleEvent ""))).1,
    ((C9_reporter_one_call_per_event NewMockInstalleventsClient (NewInstallStatus []) rfl).1
      (LifecycleEvent.RecipeFailed (sampleEvent ""))).2⟩

/-! ## Polling recipe validator: theorems -/

theorem waitForData_never_succeeds :
    ∀ (budget : Nat) (c : NRDBClient),
      (∀ k results, c.answer k = Except.ok results → hasData results = false) →
      ∃ err, (waitForData c budget).2 = Except.error err
  | 0, _, _ => ⟨validationTimeout, rfl⟩
  | budget + 1, c, h => by
    cases hq : c.answer (c.Attempts + 1) with
    | error err => exact ⟨err, by simp [waitForData, NRDBClient.Query, hq]⟩
    | ok results =>
      have hempty := h _ _ hq
      obtain ⟨err, herr⟩ := waitForData_never_succeeds budget
        { c with Attempts := c.Attempts + 1 } h
      exact ⟨err, by simp [waitForData, NRDBClient.Query, hq, hempty, herr]⟩

theorem waitForData_exhausts :
    ∀ (budget : Nat) (c : NRDBClient),
      (∀ k, ∃ results, c.answer k = Except.ok results ∧ hasData results = false) →
      waitForData c budget
        = ({ c with Attempts := c.Attempts + budget }, Except.error validationTimeout)
  | 0, _, _ => rfl
  | budget + 1, c, h => by
    obtain ⟨results, hq, hempty⟩ := h (c.Attempts + 1)
    have hrest := waitForData_exhausts budget { c with Attempts := c.Attempts + 1 } h
    simp only [waitForData, NRDBClient.Query, hq, hempty, hrest]
    simp [Nat.add_assoc, Nat.add_comm 1 budget]

theorem waitForData_third_poll (c : NRDBClient) (budget : Nat) (first second third : List NRDBResult)
    (hFresh : c.Attempts = 0)
    (h1 : c.answer 1 = Except.ok first) (e1 : hasData first = false)
    (h2 : c.answer 2 = Except.ok second) (e2 : hasData second = false)
    (h3 : c.answer 3 = Except.ok third) (e3 : hasData third = true) :
    waitForData c (budget + 3) = ({ c with Attempts := 3 }, Except.ok ()) := by
  simp [waitForData, NRDBClient.Query, hFresh, h1, e1, h2, e2, h3, e3]

/-- C10: a validator whose attempt budget reaches the third poll, on a new
query client that answers an empty result to attempts 1 and 2 and a non-empty
one to attempt 3, succeeds and has polled exactly 3 times.  For every attempt
budget, a client that never answers a non-empty result never gets a success;
when all its answers are empty results the validation fails with the timeout
error after exactly as many polls as the budget. -/
theorem C10_polling_validator (v : PollingRecipeValidator) (c : NRDBClient) :
    (3 ≤ v.maxAttempts → c.Attempts = 0 →
        (∃ first, c.answer 1 = Except.ok first ∧ hasData first = false) →
        (∃ second, c.answer 2 = Except.ok second ∧ hasData second = false) →
        (∃ third, c.answer 3 = Except.ok third ∧ hasData third = true) →
        (v.Validate c).2 = Except.ok () ∧ (v.Validate c).1.Attempts = 3)
      ∧ ((∀ k results, c.answer k = Except.ok results → hasData results = false) →
        ∃ err, (v.Validate c).2 = Except.error err)
      ∧ ((∀ k, ∃ results, c.answer k = Except.ok results ∧ hasData results = false) →
        (v.Validate c).2 = Except.error validationTimeout
          ∧ (v.Validate c).1.Attempts = c.Attempts + v.maxAttempts) := by
  refine ⟨?_, ?_, ?_⟩
  · rintro hBudget hFresh ⟨first, h1, e1⟩ ⟨second, h2, e2⟩ ⟨third, h3, e3⟩
    obtain ⟨extra, hextra⟩ := Nat.exists_eq_add_of_le hBudget
    have h := waitForData_third_poll c extra first second third hFresh h1 e1 h2 e2 h3 e3
    rw [PollingRecipeValidator.Validate, hextra, Nat.add_comm 3 extra, h]
    exact ⟨rfl, rfl⟩
  · intro h
    exact waitForData_never_succeeds v.maxAttempts c h
  · intro h
    rw [PollingRecipeValidator.Validate, waitForData_exhausts v.maxAttempts c h]
    exact ⟨rfl, rfl⟩

/-- C10 at the mock client set to answer `nonEmptyResults` from attempt 3 on,
budget 20: success after 3 polls; and at a client that only ever answers
`emptyResults`, budget 5: timeout after 5 polls. -/
theorem C10_polling_validator_witness :
    ((PollingRecipeValidator.mk 20).Validate
          (ReturnResultsAfterNAttempts emptyResults nonEmptyResults 3)).2 = Except.ok ()
      ∧ ((PollingRecipeValidator.mk 20).Validate
          (ReturnResultsAfterNAttempts emptyResults nonEmptyResults 3)).1.Attempts = 3
      ∧ ((PollingRecipeValidator.mk 5).Validate sampleSilentClient).2
          = Except.error validationTimeout
      ∧ ((PollingRecipeValidator.mk 5).Validate sampleSilentClient).1.Attempts = 5 :=
  have hit := (C10_polling_validator (PollingRecipeValidator.mk 20)
    (ReturnResultsAfterNAttempts emptyResults nonEmptyResults 3)).1 (by decide) rfl
    ⟨emptyResults, rfl, rfl⟩ ⟨emptyResults, rfl, rfl⟩ ⟨nonEmptyResults, rfl, rfl⟩
  have miss := (C10_polling_validator (PollingRecipeValidator.mk 5) sampleSilentClient).2.2
    (fun _ => ⟨emptyResults, rfl, rfl⟩)
  ⟨hit.1, hit.2, miss.1, miss.2⟩

/-! ## Scenario builder: theorems -/

/-- C11, the code on every builder: the installer of the Fail scenario is the
installer of the Basic scenario with the failing executor and with the recipe
filterer and the recipe variable preparer left nil, both of which the Basic
and the ExecDiscovery scenario set; so it is not the Basic installer with only
the executor changed. -/
theorem C11_fail_scenario_leaves_filterer_unset (b : ScenarioBuilder) :
    b.Fail = { b.Basic with
        recipeExecutor := some Collaborator.MockFailingRecipeExecutor
        recipeFilterer := none
        recipeVarPreparer := none }
      ∧ b.Fail.recipeFilterer = none
      ∧ b.Fail.recipeVarPreparer = none
      ∧ b.Basic.recipeFilterer
          = some { installerContext := b.installerContext, status := scenarioStatusRollup }
      ∧ b.Basic.recipeVarPreparer = some Collaborator.RecipeVarProvider
      ∧ b.ExecDiscovery.recipeFilterer = b.Basic.recipeFilterer
      ∧ b.ExecDiscovery.recipeVarPreparer = b.Basic.recipeVarPreparer
      ∧ b.Fail ≠ { b.Basic with
          recipeExecutor := some Collaborator.MockFailingRecipeExecutor } := by
  refine ⟨rfl, rfl, rfl, rfl, rfl, rfl, rfl, ?_⟩
  intro h
  have h2 := congrArg RecipeInstaller.recipeVarPreparer h
  simp [ScenarioBuilder.Fail, ScenarioBuilder.Basic] at h2

/-- C12: the Basic and the Fail scenario take their recipe fetcher from
`setupRecipeFetcherGuidedInstall`, which returns exactly 2 recipes, named
`infrastructure-agent-installer` and `logs-integration` in that order, both
with an empty `RequireAtDiscovery`; the discovery-predicate condition of the
filter retains both, whatever running a predicate on the host would give. -/
theorem C12_guided_install_catalog (b : ScenarioBuilder) (succeeds : String → Bool) :
    b.Basic.recipeFetcher = some setupRecipeFetcherGuidedInstall
      ∧ b.Fail.recipeFetcher = some setupRecipeFetcherGuidedInstall
      ∧ setupRecipeFetcherGuidedInstall.FetchRecipes.length = 2
      ∧ setupRecipeFetcherGuidedInstall.FetchRecipes.map (fun r => r.Name)
          = ["infrastructure-agent-installer", "logs-integration"]
      ∧ setupRecipeFetcherGuidedInstall.FetchRecipes.map
          (fun r => r.PreInstall.RequireAtDiscovery) = ["", ""]
      ∧ setupRecipeFetcherGuidedInstall.FetchRecipes.filter (passesDiscovery succeeds)
          = setupRecipeFetcherGuidedInstall.FetchRecipes := by
  refine ⟨rfl, rfl, rfl, rfl, rfl, ?_⟩
  simp [MockRecipeFetcher.FetchRecipes, setupRecipeFetcherGuidedInstall, passesDiscovery]

/-! ## NerdStorage document commands: theorems -/

theorem dispatchesByScope_of_calls (flags : DocumentFlags) (operation : DocumentOperation)
    (document : Option (Option (List (String × JsonValue)))) (run : DocumentRun)
    (hcalls : run.calls =
      if toLower flags.scope = "account" then
        [documentCall flags operation document (DocumentScope.account flags.accountID)]
      else if toLower flags.scope = "entity" then
        [documentCall flags operation document (DocumentScope.entity flags.entityGUID)]
      else if toLower flags.scope = "user" then
        [documentCall flags operation document DocumentScope.user]
      else [])
    (hother : toLower flags.scope ≠ "account" → toLower flags.scope ≠ "entity" →
      toLower flags.scope ≠ "user" → run.outcome = CommandOutcome.fatal scopeMessage) :
    dispatchesByScope flags operation document run := by
  unfold dispatchesByScope
  rw [hcalls]
  by_cases h1 : toLower flags.scope = "account"
  · simp [h1, documentCall]
  · by_cases h2 : toLower flags.scope = "entity"
    · simp [h2, documentCall]
    · by_cases h3 : toLower flags.scope = "user"
      · simp [h3, documentCall]
      · simp [h1, h2, h3]
        exact hother h1 h2 h3

theorem cmdDocumentGet_dispatches (flags : DocumentFlags)
    (respond : NerdStorageCall → Except String String) (printError : String → Option String) :
    dispatchesByScope flags DocumentOperation.get none
      (cmdDocumentGet.Run flags respond printError) := by
  apply dispatchesByScope_of_calls
  · simp only [cmdDocumentGet.Run]
    split_ifs <;> first | rfl | (split <;> first | rfl | (split <;> rfl))
  · intro h1 h2 h3
    simp [cmdDocumentGet.Run, h1, h2, h3]

theorem cmdDocumentDelete_dispatches (flags : DocumentFlags)
    (respond : NerdStorageCall → Except String String) :
    dispatchesByScope flags DocumentOperation.delete none
      (cmdDocumentDelete.Run flags respond) := by
  apply dispatchesByScope_of_calls
  · simp only [cmdDocumentDelete.Run]
    split_ifs <;> first | rfl | (split <;> rfl)
  · intro h1 h2 h3
    simp [cmdDocumentDelete.Run, h1, h2, h3]

theorem cmdDocumentWrite_dispatches (flags : DocumentFlags)
    (respond : NerdStorageCall → Except String String)
    (unmarshaled : Option (List (String × JsonValue)))
    (hdoc : jsonUnmarshalMap flags.document = Except.ok unmarshaled) :
    dispatchesByScope flags DocumentOperation.write (some unmarshaled)
      (cmdDocumentWrite.Run flags respond) := by
  apply dispatchesByScope_of_calls
  · simp only [cmdDocumentWrite.Run, hdoc]
    split_ifs <;> first | rfl | (split <;> rfl)
  · intro h1 h2 h3
    simp [cmdDocumentWrite.Run, hdoc, h1, h2, h3]

/-- C13, the claim as stated fails for the write command: with scope `ACCOUNT`,
whose lower case is `account`, and a document that is not JSON, no NerdStorage
operation is invoked; and with a scope that is none of the three and such a
document, the run does not end in the scope message. -/
theorem C13_write_rejects_document_before_scope :
    toLower (sampleDocumentFlags "ACCOUNT" "not json").scope = "account"
      ∧ (cmdDocumentWrite.Run (sampleDocumentFlags "ACCOUNT" "not json") sampleRespond).calls
          = []
      ∧ toLower (sampleDocumentFlags "galaxy" "not json").scope = "galaxy"
      ∧ (cmdDocumentWrite.Run (sampleDocumentFlags "galaxy" "not json") sampleRespond).outcome
          ≠ CommandOutcome.fatal scopeMessage := by
  refine ⟨by decide, rfl, by decide, by decide⟩

/-- C13, amended: the get and the delete command dispatch on the scope for
every scope string, and so does the write command whenever its document
decodes (to an object or to `null`); a document that does not decode ends the
write command in the "error parsing provided document" message with no
NerdStorage operation invoked, whatever the scope. -/
theorem C13_document_commands_dispatch_by_scope (flags : DocumentFlags)
    (respond : NerdStorageCall → Except String String) (printError : String → Option String) :
    dispatchesByScope flags DocumentOperation.get none
        (cmdDocumentGet.Run flags respond printError)
      ∧ dispatchesByScope flags DocumentOperation.delete none
        (cmdDocumentDelete.Run flags respond)
      ∧ (∀ unmarshaled, jsonUnmarshalMap flags.document = Except.ok unmarshaled →
        dispatchesByScope flags DocumentOperation.write (some unmarshaled)
          (cmdDocumentWrite.Run flags respond))
      ∧ (∀ err, jsonUnmarshalMap flags.document = Except.error err →
        (cmdDocumentWrite.Run flags respond).calls = []
          ∧ (cmdDocumentWrite.Run flags respond).outcome
            = CommandOutcome.fatal ("error parsing provided document: " ++ err)) := by
  refine ⟨cmdDocumentGet_dispatches flags respond printError,
    cmdDocumentDelete_dispatches flags respond,
    fun unmarshaled hdoc => cmdDocumentWrite_dispatches flags respond unmarshaled hdoc, ?_⟩
  intro err herr
  simp [cmdDocumentWrite.Run, herr]

/-- C13 amended, at a write of the document `{}` in scope `Entity`: the
entity-scoped call is the one made; and at a write of a text that is not JSON:
no call. -/
theorem C13_document_commands_dispatch_by_scope_witness :
    (cmdDocumentWrite.Run (sampleDocumentFlags "Entity" "\x7b\x7d") sampleRespond).calls
        = [documentCall (sampleDocumentFlags "Entity" "\x7b\x7d") DocumentOperation.write
            (some (some [])) (DocumentScope.entity "")]
      ∧ (cmdDocumentWrite.Run (sampleDocumentFlags "Entity" "not json") sampleRespond).calls
        = [] :=
  ⟨((C13_document_commands_dispatch_by_scope (sampleDocumentFlags "Entity" "\x7b\x7d")
      sampleRespond (fun _ => none)).2.2.1 (some []) rfl).2.1.mp (by decide),
    ((C13_document_commands_dispatch_by_scope (sampleDocumentFlags "Entity" "not json")
      sampleRespond (fun _ => none)).2.2.2 "invalid JSON text" rfl).1⟩

theorem cmdDocumentGet_delegates (flags : DocumentFlags)
    (respond : NerdStorageCall → Except String String) (printError : String → Option String)
    (scope : DocumentScope)
    (hrun : cmdDocumentGet.Run flags respond printError
      = match respond (documentCall flags DocumentOperation.get none scope) with
        | Except.error err =>
          { calls := [documentCall flags DocumentOperation.get none scope], printed := []
            outcome := CommandOutcome.fatal err }
        | Except.ok document =>
          match printError document with
          | some err =>
            { calls := [documentCall flags DocumentOperation.get none scope], printed := []
              outcome := CommandOutcome.fatal err }
          | none =>
            { calls := [documentCall flags DocumentOperation.get none scope]
              printed := [document], outcome := CommandOutcome.returned }) :
    delegatesTo (documentCall flags DocumentOperation.get none scope) respond printError
      (cmdDocumentGet.Run flags respond printError) := by
  rw [hrun]
  unfold delegatesTo
  cases hr : respond (documentCall flags DocumentOperation.get none scope) with
  | error err =>
    refine ⟨rfl, fun e he => ?_, fun d hd => ?_⟩
    · cases he
      rfl
    · cases hd
  | ok document =>
    dsimp only
    cases hp : printError document with
    | some err =>
      refine ⟨rfl, fun e he => ?_, fun d hd hnone => ?_⟩
      · cases he
      · cases hd
        rw [hp] at hnone
        cases hnone
    | none =>
      refine ⟨rfl, fun e he => ?_, fun d hd _ => rfl⟩
      cases he

theorem silentRun_delegates (c : NerdStorageCall)
    (respond : NerdStorageCall → Except String String) (run : DocumentRun)
    (hrun : run
      = match respond c with
        | Except.error err => { calls := [c], printed := [], outcome := CommandOutcome.fatal err }
        | Except.ok _ => { calls := [c], printed := [], outcome := CommandOutcome.returned }) :
    delegatesTo c respond (fun _ => none) run := by
  rw [hrun]
  unfold delegatesTo
  cases hr : respond c with
  | error err =>
    refine ⟨rfl, fun e he => ?_, fun d hd => ?_⟩
    · cases he
      rfl
    · cases hd
  | ok document =>
    refine ⟨rfl, fun e he => ?_, fun d _ _ => rfl⟩
    cases he

/-- C14, the claim as stated fails: with scope `ACCOUNT` and the account ID
left at 0 the get, write and delete commands pass the request to the
account-scoped operation with account ID 0, and with scope `ENTITY` and the
entity GUID left empty to the entity-scoped operation with the empty GUID; when
the request is refused, it is the client that refuses it, after the call. -/
theorem C14_missing_account_or_entity_is_passed_on :
    (cmdDocumentGet.Run (sampleDocumentFlags "ACCOUNT" "\x7b\x7d") sampleStrictRespond
        (fun _ => none)).calls
        = [documentCall (sampleDocumentFlags "ACCOUNT" "\x7b\x7d") DocumentOperation.get none
            (DocumentScope.account 0)]
      ∧ (cmdDocumentWrite.Run (sampleDocumentFlags "ACCOUNT" "\x7b\x7d")
          sampleStrictRespond).calls
        = [documentCall (sampleDocumentFlags "ACCOUNT" "\x7b\x7d") DocumentOperation.write
            (some (some [])) (DocumentScope.account 0)]
      ∧ (cmdDocumentDelete.Run (sampleDocumentFlags "ACCOUNT" "\x7b\x7d")
          sampleStrictRespond).calls
        = [documentCall (sampleDocumentFlags "ACCOUNT" "\x7b\x7d") DocumentOperation.delete
            none (DocumentScope.account 0)]
      ∧ (cmdDocumentGet.Run (sampleDocumentFlags "ENTITY" "\x7b\x7d") sampleStrictRespond
        (fun _ => none)).calls
        = [documentCall (sampleDocumentFlags "ENTITY" "\x7b\x7d") DocumentOperation.get none
            (DocumentScope.entity "")]
      ∧ (cmdDocumentWrite.Run (sampleDocumentFlags "ENTITY" "\x7b\x7d")
          sampleStrictRespond).calls
        = [documentCall (sampleDocumentFlags "ENTITY" "\x7b\x7d") DocumentOperation.write
            (some (some [])) (DocumentScope.entity "")]
      ∧ (cmdDocumentDelete.Run (sampleDocumentFlags "ENTITY" "\x7b\x7d")
          sampleStrictRespond).calls
        = [documentCall (sampleDocumentFlags "ENTITY" "\x7b\x7d") DocumentOperation.delete
            none (DocumentScope.entity "")]
      ∧ (cmdDocumentGet.Run (sampleDocumentFlags "ACCOUNT" "\x7b\x7d") sampleRespond
        (fun _ => none)).calls
        = [documentCall (sampleDocumentFlags "ACCOUNT" "\x7b\x7d") DocumentOperation.get none
            (DocumentScope.account 0)]
      ∧ (cmdDocumentGet.Run (sampleDocumentFlags "ACCOUNT" "\x7b\x7d") sampleRespond
        (fun _ => none)).outcome = CommandOutcome.returned := by
  refine ⟨rfl, rfl, rfl, rfl, rfl, rfl, rfl, rfl⟩

/-- C14, amended: the document commands do not check the account ID or the
entity GUID.  With a scope that lower-cases to `account` the get, the delete
and (once its document decodes) the write command make the account-scoped call
with the account ID flag as it is, 0 included, and with a scope that
lower-cases to `entity` the entity-scoped call with the entity GUID flag as it
is, the empty one included; the run ends in `log.Fatal` exactly on the error
of that call, with that error, and returns on its answer. -/
theorem C14_scoped_request_is_delegated (flags : DocumentFlags)
    (respond : NerdStorageCall → Except String String) (printError : String → Option String) :
    (toLower flags.scope = "account" →
        delegatesTo
            (documentCall flags DocumentOperation.get none
              (DocumentScope.account flags.accountID))
            respond printError (cmdDocumentGet.Run flags respond printError)
          ∧ delegatesTo
            (documentCall flags DocumentOperation.delete none
              (DocumentScope.account flags.accountID))
            respond (fun _ => none) (cmdDocumentDelete.Run flags respond)
          ∧ (∀ unmarshaled, jsonUnmarshalMap flags.document = Except.ok unmarshaled →
            delegatesTo
              (documentCall flags DocumentOperation.write (some unmarshaled)
                (DocumentScope.account flags.accountID))
              respond (fun _ => none) (cmdDocumentWrite.Run flags respond)))
      ∧ (toLower flags.scope = "entity" →
        delegatesTo
            (documentCall flags DocumentOperation.get none
              (DocumentScope.entity flags.entityGUID))
            respond printError (cmdDocumentGet.Run flags respond printError)
          ∧ delegatesTo
            (documentCall flags DocumentOperation.delete none
              (DocumentScope.entity flags.entityGUID))
            respond (fun _ => none) (cmdDocumentDelete.Run flags respond)
          ∧ (∀ unmarshaled, jsonUnmarshalMap flags.document = Except.ok unmarshaled →
            delegatesTo
              (documentCall flags DocumentOperation.write (some unmarshaled)
                (DocumentScope.entity flags.entityGUID))
              respond (fun _ => none) (cmdDocumentWrite.Run flags respond))) := by
  constructor
  · intro h
    refine ⟨cmdDocumentGet_delegates flags respond printError _ ?_,
      silentRun_delegates _ respond _ ?_, fun unmarshaled hdoc =>
        silentRun_delegates _ respond _ ?_⟩
    · simp only [cmdDocumentGet.Run, if_pos h]
    · simp only [cmdDocumentDelete.Run, if_pos h]
    · simp only [cmdDocumentWrite.Run, hdoc, if_pos h]
  · intro h
    have hne : ¬ toLower flags.scope = "account" := by
      rw [h]
      decide
    refine ⟨cmdDocumentGet_delegates flags respond printError _ ?_,
      silentRun_delegates _ respond _ ?_, fun unmarshaled hdoc =>
        silentRun_delegates _ respond _ ?_⟩
    · simp only [cmdDocumentGet.Run, if_neg hne, if_pos h]
    · simp only [cmdDocumentDelete.Run, if_neg hne, if_pos h]
    · simp only [cmdDocumentWrite.Run, hdoc, if_neg hne, if_pos h]

/-- C14 amended, at a get in scope `ACCOUNT` without account ID on a client
that refuses account ID 0: the call is made with 0 and the run ends in the
error of the client. -/
theorem C14_scoped_request_is_delegated_witness :
    (cmdDocumentGet.Run (sampleDocumentFlags "ACCOUNT" "\x7b\x7d") sampleStrictRespond
        (fun _ => none)).calls
        = [documentCall (sampleDocumentFlags "ACCOUNT" "\x7b\x7d") DocumentOperation.get none
            (DocumentScope.account 0)]
      ∧ (cmdDocumentGet.Run (sampleDocumentFlags "ACCOUNT" "\x7b\x7d") sampleStrictRespond
        (fun _ => none)).outcome
        = CommandOutcome.fatal "account ID is required when using account scope" :=
  ⟨((C14_scoped_request_is_delegated (sampleDocumentFlags "ACCOUNT" "\x7b\x7d")
      sampleStrictRespond (fun _ => none)).1 (by decide)).1.1,
    ((C14_scoped_request_is_delegated (sampleDocumentFlags "ACCOUNT" "\x7b\x7d")
      sampleStrictRespond (fun _ => none)).1 (by decide)).1.2.1
      "account ID is required when using account scope" rfl⟩

/-! ## Events post command: theorems -/

/-- C15, the claim as stated fails: with an insert key in the profile the post
command calls `CreateEvent` with the payload `{}`, the default of the flag,
and with a payload whose only key is `amount`, both JSON objects without an
`eventType` key; when the payload is refused, it is the client that refuses
it, after the call. -/
theorem C15_post_passes_payload_without_event_type :
    jsonKeys "\x7b\x7d" = []
      ∧ cmdPost.Run 12345 "\x7b\x7d" (some samplePostProfile) (fun _ _ => none)
        = some { createEventCalls := [(12345, "\x7b\x7d")]
                 outcome := CommandOutcome.returned }
      ∧ cmdPost.Run 12345 "\x7b\x7d" (some samplePostProfile) sampleRefuseEvent
        = some { createEventCalls := [(12345, "\x7b\x7d")]
                 outcome := CommandOutcome.fatal "failed creating custom event" }
      ∧ jsonKeys "\x7b \"amount\": 123.45 \x7d" = ["amount"]
      ∧ cmdPost.Run 12345 "\x7b \"amount\": 123.45 \x7d" (some samplePostProfile)
          sampleRefuseEvent
        = some { createEventCalls := [(12345, "\x7b \"amount\": 123.45 \x7d")]
                 outcome := CommandOutcome.fatal "failed creating custom event" } := by
  refine ⟨by decide, rfl, rfl, by decide, rfl⟩

/-- C15, amended: the post command does not look for an `eventType` key.  With
an insert key in the profile, every payload that decodes as a JSON object,
whatever its keys, is handed to `CreateEvent` once, with the account ID flag
and the payload text; the run ends in `log.Fatal` exactly on the error of that
call, with that error, and returns when the call succeeds. -/
theorem C15_post_leaves_event_type_to_client (accountID : Int) (event : String) (p : Profile)
    (createEvent : Int → String → Option String) (members : List (String × JsonValue))
    (hKey : p.InsightsInsertKey ≠ "")
    (hObject : jsonUnmarshalMap event = Except.ok (some members)) :
    (createEvent accountID event = none →
        cmdPost.Run accountID event (some p) createEvent
          = some { createEventCalls := [(accountID, event)]
                   outcome := CommandOutcome.returned })
      ∧ (∀ err, createEvent accountID event = some err →
        cmdPost.Run accountID event (some p) createEvent
          = some { createEventCalls := [(accountID, event)]
                   outcome := CommandOutcome.fatal err }) := by
  constructor
  · intro h
    simp only [cmdPost.Run, if_neg hKey, hObject, h]
  · intro err h
    simp only [cmdPost.Run, if_neg hKey, hObject, h]

/-- C15 amended, at the payload `{}`, which has no key at all: on a client
that accepts it the run returns after the call, on a client that refuses it
the run ends in the error of the client after the call. -/
theorem C15_post_leaves_event_type_to_client_witness :
    cmdPost.Run 12345 "\x7b\x7d" (some samplePostProfile) (fun _ _ => none)
        = some { createEventCalls := [(12345, "\x7b\x7d")]
                 outcome := CommandOutcome.returned }
      ∧ cmdPost.Run 12345 "\x7b\x7d" (some samplePostProfile) sampleRefuseEvent
        = some { createEventCalls := [(12345, "\x7b\x7d")]
                 outcome := CommandOutcome.fatal "failed creating custom event" } :=
  ⟨(C15_post_leaves_event_type_to_client 12345 "\x7b\x7d" samplePostProfile
      (fun _ _ => none) [] (by decide) rfl).1 rfl,
    (C15_post_leaves_event_type_to_client 12345 "\x7b\x7d" samplePostProfile
      sampleRefuseEvent [] (by decide) rfl).2 "failed creating custom event" rfl⟩

/-! ## Entity search command: theorems -/

/-- C16: the search command stops at the missing-criteria check exactly when
the name, type, alert-severity and domain flags are all empty; it then shows
the help and ends in "one of --name, --type, --alert-severity, or --domain are
required" without sending a search, whatever the tag, reporting and fields
flags hold. -/
theorem C16_search_requires_a_criterion (flags : SearchFlags)
    (assembleTagValue : String → Except String (String × String))
    (search : EntitySearchQueryBuilder → Except String (List String))
    (structToMap : String → List String → String)
    (printError : SearchOutput → Option String) :
    ((flags.entityName = "" ∧ flags.entityType = "" ∧ flags.entityAlertSeverity = ""
          ∧ flags.entityDomain = "") ↔
        (cmdEntitySearch.Run flags assembleTagValue search structToMap printError).stoppedAt
          = some SearchStop.missingCriteria)
      ∧ ((flags.entityName = "" ∧ flags.entityType = "" ∧ flags.entityAlertSeverity = ""
          ∧ flags.entityDomain = "") →
        (cmdEntitySearch.Run flags assembleTagValue search structToMap printError).outcome
            = CommandOutcome.fatal
              "one of --name, --type, --alert-severity, or --domain are required"
          ∧ (cmdEntitySearch.Run flags assembleTagValue search structToMap printError).searches
            = []
          ∧ (cmdEntitySearch.Run flags assembleTagValue search structToMap printError).helpShown
            = true) := by
  by_cases h : flags.entityName = "" ∧ flags.entityType = "" ∧ flags.entityAlertSeverity = ""
      ∧ flags.entityDomain = ""
  · have hrun : cmdEntitySearch.Run flags assembleTagValue search structToMap printError
        = { helpShown := true, searches := [], printed := []
            stoppedAt := some SearchStop.missingCriteria
            outcome := CommandOutcome.fatal criteriaMessage } := by
      simp only [cmdEntitySearch.Run, if_pos h]
    rw [hrun]
    exact ⟨⟨fun _ => rfl, fun _ => h⟩, fun _ => ⟨rfl, rfl, rfl⟩⟩
  · refine ⟨⟨fun h2 => absurd h2 h, ?_⟩, fun h2 => absurd h2 h⟩
    intro hstop
    exfalso
    simp only [cmdEntitySearch.Run, sendSearch, if_neg h] at hstop
    repeat' split at hstop
    all_goals simp at hstop

/-- C16 at a search given only a tag and at a search given only a reporting
value: both end in the missing-criteria message with no search sent. -/
theorem C16_search_requires_a_criterion_witness :
    (cmdEntitySearch.Run (sampleSearchFlags "" "env:prod" "") sampleAssembleTagValue
        sampleSearch (fun e _ => e) (fun _ => none)).outcome
        = CommandOutcome.fatal
          "one of --name, --type, --alert-severity, or --domain are required"
      ∧ (cmdEntitySearch.Run (sampleSearchFlags "" "" "true") sampleAssembleTagValue
        sampleSearch (fun e _ => e) (fun _ => none)).searches = [] :=
  ⟨((C16_search_requires_a_criterion (sampleSearchFlags "" "env:prod" "")
      sampleAssembleTagValue sampleSearch (fun e _ => e) (fun _ => none)).2
      (by decide)).1,
    ((C16_search_requires_a_criterion (sampleSearchFlags "" "" "true")
      sampleAssembleTagValue sampleSearch (fun e _ => e) (fun _ => none)).2
      (by decide)).2.1⟩

theorem sendSearch_searches (flags : SearchFlags) (params : EntitySearchQueryBuilder)
    (search : EntitySearchQueryBuilder → Except String (List String))
    (structToMap : String → List String → String)
    (printError : SearchOutput → Option String) :
    (sendSearch flags params search structToMap printError).searches = [params]
      ∧ (sendSearch flags params search structToMap printError).stoppedAt
        ≠ some SearchStop.reporting := by
  unfold sendSearch
  split
  · exact ⟨rfl, by simp⟩
  · dsimp only
    split <;> exact ⟨rfl, by simp⟩

theorem ParseBool_true_iff (s : String) :
    ParseBool s = some true ↔ s ∈ ["1", "t", "T", "TRUE", "true", "True"] := by
  unfold ParseBool
  split_ifs with h1 h2
  · simpa using h1
  · simp only [List.mem_cons, List.mem_singleton, List.not_mem_nil, or_false]
    constructor
    · intro h
      cases h
    · intro h
      exact absurd h h1
  · simp only [List.mem_cons, List.mem_singleton, List.not_mem_nil, or_false]
    constructor
    · intro h
      cases h
    · intro h
      exact absurd h h1

theorem ParseBool_false_iff (s : String) :
    ParseBool s = some false ↔ s ∈ ["0", "f", "F", "FALSE", "false", "False"] := by
  unfold ParseBool
  split_ifs with h1 h2
  · simp only [List.mem_cons, List.mem_singleton, List.not_mem_nil, or_false]
    constructor
    · intro h
      cases h
    · intro h
      exfalso
      rcases h1 with h1 | h1 | h1 | h1 | h1 | h1 <;>
        rcases h with h | h | h | h | h | h <;> (rw [h1] at h; revert h; decide)
  · simpa using h2
  · simp only [List.mem_cons, List.mem_singleton, List.not_mem_nil, or_false]
    constructor
    · intro h
      cases h
    · intro h
      exact absurd h h2

/-- C17, the claim as stated fails: the reporting value `1`, which is neither
the string `true` nor the string `false`, is accepted; the search is sent with
`Reporting` true and the command returns. -/
theorem C17_reporting_accepts_one :
    (cmdEntitySearch.Run (sampleSearchFlags "myApp" "" "1") sampleAssembleTagValue
        sampleSearch (fun e _ => e) (fun _ => none)).searches
        = [{ EntitySearchQueryBuilder.zero with Name := "myApp", Reporting := true }]
      ∧ (cmdEntitySearch.Run (sampleSearchFlags "myApp" "" "1") sampleAssembleTagValue
        sampleSearch (fun e _ => e) (fun _ => none)).outcome = CommandOutcome.returned := by
  constructor <;> decide

/-- C17, amended: when the command gets to the reporting flag (one of the four
criteria is given and the tag, if any, is well formed), a non-empty reporting
value is rejected with "invalid value provided for flag --reporting. Must be
true or false.", no search being sent, exactly when `strconv.ParseBool`
rejects it; an accepted value sets `Reporting` in the search sent to the
boolean it spells, which is true for `1`, `t`, `T`, `TRUE`, `true`, `True` and
false for `0`, `f`, `F`, `FALSE`, `false`, `False`. -/
theorem C17_reporting_accepted_iff_ParseBool (flags : SearchFlags)
    (assembleTagValue : String → Except String (String × String))
    (search : EntitySearchQueryBuilder → Except String (List String))
    (structToMap : String → List String → String)
    (printError : SearchOutput → Option String)
    (hCriteria : ¬ (flags.entityName = "" ∧ flags.entityType = ""
      ∧ flags.entityAlertSeverity = "" ∧ flags.entityDomain = ""))
    (hTag : flags.entityTag ≠ "" →
      ∃ key value, assembleTagValue flags.entityTag = Except.ok (key, value))
    (hReporting : flags.entityReporting ≠ "") :
    (ParseBool flags.entityReporting = none ↔
        (cmdEntitySearch.Run flags assembleTagValue search structToMap printError).stoppedAt
          = some SearchStop.reporting)
      ∧ (ParseBool flags.entityReporting = none →
        (cmdEntitySearch.Run flags assembleTagValue search structToMap printError).outcome
            = CommandOutcome.fatal
              "invalid value provided for flag --reporting. Must be true or false."
          ∧ (cmdEntitySearch.Run flags assembleTagValue search structToMap printError).searches
            = [])
      ∧ (∀ reporting, ParseBool flags.entityReporting = some reporting →
        ∃ params,
          (cmdEntitySearch.Run flags assembleTagValue search structToMap printError).searches
              = [params]
            ∧ params.Reporting = reporting)
      ∧ (ParseBool flags.entityReporting = some true ↔
        flags.entityReporting ∈ ["1", "t", "T", "TRUE", "true", "True"])
      ∧ (ParseBool flags.entityReporting = some false ↔
        flags.entityReporting ∈ ["0", "f", "F", "FALSE", "false", "False"]) := by
  have htagged : ∃ params5, taggedParams flags assembleTagValue = Except.ok params5 := by
    unfold taggedParams
    by_cases ht : flags.entityTag = ""
    · exact ⟨_, by rw [if_neg (not_not.mpr ht)]⟩
    · obtain ⟨key, value, hkv⟩ := hTag ht
      exact ⟨_, by rw [if_pos ht, hkv]⟩
  obtain ⟨params5, htagged⟩ := htagged
  have hrun : cmdEntitySearch.Run flags assembleTagValue search structToMap printError
      = match ParseBool flags.entityReporting with
        | none =>
          { helpShown := false, searches := [], printed := []
            stoppedAt := some SearchStop.reporting
            outcome := CommandOutcome.fatal reportingMessage }
        | some reporting =>
          sendSearch flags { params5 with Reporting := reporting } search structToMap
            printError := by
    simp only [cmdEntitySearch.Run, if_neg hCriteria, htagged, reportedParams, if_pos hReporting]
    cases ParseBool flags.entityReporting <;> rfl
  rw [hrun]
  refine ⟨?_, ?_, ?_, ParseBool_true_iff _, ParseBool_false_iff _⟩
  · cases hp : ParseBool flags.entityReporting with
    | none => simp
    | some reporting =>
      constructor
      · intro h
        cases h
      · intro h
        exact absurd h (sendSearch_searches flags _ search structToMap printError).2
  · intro hp
    rw [hp]
    exact ⟨rfl, rfl⟩
  · intro reporting hp
    rw [hp]
    exact ⟨_, (sendSearch_searches flags _ search structToMap printError).1, rfl⟩

/-- C17 amended, at a search by name with reporting `maybe` (rejected, no
search sent) and with reporting `False` (sent with `Reporting` false). -/
theorem C17_reporting_accepted_iff_ParseBool_witness :
    (cmdEntitySearch.Run (sampleSearchFlags "myApp" "" "maybe") sampleAssembleTagValue
        sampleSearch (fun e _ => e) (fun _ => none)).outcome
        = CommandOutcome.fatal
          "invalid value provided for flag --reporting. Must be true or false."
      ∧ ∃ params,
        (cmdEntitySearch.Run (sampleSearchFlags "myApp" "" "False") sampleAssembleTagValue
          sampleSearch (fun e _ => e) (fun _ => none)).searches = [params]
          ∧ params.Reporting = false :=
  ⟨((C17_reporting_accepted_iff_ParseBool (sampleSearchFlags "myApp" "" "maybe")
      sampleAssembleTagValue sampleSearch (fun e _ => e) (fun _ => none)
      (by decide) (fun h => absurd rfl h) (by decide)).2.1 (by decide)).1,
    (C17_reporting_accepted_iff_ParseBool (sampleSearchFlags "myApp" "" "False")
      sampleAssembleTagValue sampleSearch (fun e _ => e) (fun _ => none)
      (by decide) (fun h => absurd rfl h) (by decide)).2.2.1 false (by decide)⟩

/-! ## Profile list command: theorems -/

theorem mapGet_mapSet (key value other : String) :
    ∀ m : List (String × String),
      mapGet other (mapSet key value m) = if other = key then some value else mapGet other m
  | [] => by
    by_cases h : other = key
    · simp [mapSet, mapGet, h]
    · simp [mapSet, mapGet, h, Ne.symm h]
  | (k, v) :: rest => by
    by_cases hk : k = key
    · by_cases h : other = key
      · simp [mapSet, mapGet, hk, h]
      · simp [mapSet, mapGet, hk, h, Ne.symm h]
    · by_cases h : other = key
      · subst h
        simp [mapSet, mapGet, hk, mapGet_mapSet other value other rest]
      · simp [mapSet, mapGet, hk, h, mapGet_mapSet key value other rest]

theorem mapGet_foldl_other (value : FieldDefinition → String) (key : String) :
    ∀ (fields : List FieldDefinition) (out : List (String × String)),
      key ∉ fields.map (fun d => d.Key) →
      mapGet key (fields.foldl (fun m d => mapSet d.Key (value d) m) out) = mapGet key out
  | [], _, _ => rfl
  | d :: rest, out, h => by
    simp only [List.map_cons, List.mem_cons, not_or] at h
    rw [List.foldl_cons, mapGet_foldl_other value key rest _ h.2, mapGet_mapSet, if_neg h.1]

theorem mapGet_foldl_mem (value : FieldDefinition → String) (d : FieldDefinition) :
    ∀ (fields : List FieldDefinition) (out : List (String × String)),
      d ∈ fields → (fields.map (fun x => x.Key)).Nodup →
      mapGet d.Key (fields.foldl (fun m x => mapSet x.Key (value x) m) out) = some (value d)
  | [], _, hmem, _ => by cases hmem
  | x :: rest, out, hmem, hnodup => by
    simp only [List.map_cons, List.nodup_cons] at hnodup
    rw [List.foldl_cons]
    rcases List.mem_cons.mp hmem with hx | hrest
    · subst hx
      rw [mapGet_foldl_other value d.Key rest _ hnodup.1, mapGet_mapSet, if_pos rfl]
    · exact mapGet_foldl_mem value d rest _ hrest hnodup.2

theorem foldl_mapSet_congr (f g : FieldDefinition → String) :
    ∀ (fields : List FieldDefinition) (out : List (String × String)),
      (∀ d ∈ fields, f d = g d) →
      fields.foldl (fun m d => mapSet d.Key (f d) m) out
        = fields.foldl (fun m d => mapSet d.Key (g d) m) out
  | [], _, _ => rfl
  | d :: rest, out, h => by
    rw [List.foldl_cons, List.foldl_cons, h d (List.mem_cons_self d rest)]
    exact foldl_mapSet_congr f g rest _ (fun x hx => h x (List.mem_cons_of_mem d hx))

theorem profileRow_hidden_congr (sprint : String → String) (a b : ProfileConfiguration)
    (h : sameButSensitive a b) (p : String) :
    profileRow false sprint a p = profileRow false sprint b p := by
  obtain ⟨_, hactive, hfields, hvalues⟩ := h
  unfold profileRow
  rw [← hfields p, ← hactive]
  apply foldl_mapSet_congr
  intro d hd
  unfold listedValue
  cases hs : d.Sensitive with
  | true => rfl
  | false => simpa using hvalues p d hd hs

/-- C18: for every profile and field definition the list command lists, under
the definition's key, the styled placeholder `<hidden>` when the definition is
sensitive and show-keys is false, and the stored profile string of the key when
show-keys is true or the definition is not sensitive; the row of the profile
holds that value under the key (the keys of the profile's definitions being
distinct); and with show-keys false two configurations that differ only in the
stored values of sensitive fields give the same listing.  The listing of the
command has one row per profile name, in order; the row at the place of a
profile holds the name of the profile under `Name`, with the styled default
mark when the profile is the active one, and under the key of each of its
field definitions the value just described. -/
theorem C18_profile_list_hides_sensitive_values (sprint : String → String)
    (cfg : ProfileConfiguration) (p : String) (d : FieldDefinition) :
    (d.Sensitive = true → listedValue false sprint cfg p d = sprint "<hidden>")
      ∧ (d.Sensitive = false →
        ∀ showKeys, listedValue showKeys sprint cfg p d = cfg.profileString p d.Key)
      ∧ listedValue true sprint cfg p d = cfg.profileString p d.Key
      ∧ (d ∈ cfg.profileFields p → ((cfg.profileFields p).map (fun x => x.Key)).Nodup →
        ∀ showKeys,
          mapGet d.Key (profileRow showKeys sprint cfg p)
            = some (listedValue showKeys sprint cfg p d))
      ∧ (∀ other : ProfileConfiguration, sameButSensitive cfg other →
        cmdList.Run false sprint cfg = cmdList.Run false sprint other)
      ∧ (∀ showKeys, (cmdList.Run showKeys sprint cfg).length = cfg.profileNames.length)
      ∧ (∀ (showKeys : Bool) (i : Nat), cfg.profileNames[i]? = some p →
        ∃ row, (cmdList.Run showKeys sprint cfg)[i]? = some row
          ∧ ("Name" ∉ (cfg.profileFields p).map (fun x => x.Key) →
            mapGet "Name" row
              = some (if p = cfg.activeProfileName then p ++ sprint " (default)" else p))
          ∧ (d ∈ cfg.profileFields p → ((cfg.profileFields p).map (fun x => x.Key)).Nodup →
            (d.Sensitive = true → showKeys = false →
                mapGet d.Key row = some (sprint "<hidden>"))
              ∧ ((showKeys = true ∨ d.Sensitive = false) →
                mapGet d.Key row = some (cfg.profileString p d.Key)))) := by
  refine ⟨?_, ?_, ?_, ?_, ?_, ?_, ?_⟩
  · intro hs
    simp [listedValue, hs, hiddenKeyString]
  · intro hs showKeys
    simp [listedValue, hs]
  · simp [listedValue]
  · intro hmem hnodup showKeys
    exact mapGet_foldl_mem _ d _ _ hmem hnodup
  · intro other hsame
    unfold cmdList.Run
    rw [← hsame.1]
    exact List.map_congr_left (fun q _ => profileRow_hidden_congr sprint cfg other hsame q)
  · intro showKeys
    simp [cmdList.Run]
  · intro showKeys i hi
    refine ⟨profileRow showKeys sprint cfg p, ?_, ?_, ?_⟩
    · simp [cmdList.Run, List.getElem?_map, hi]
    · intro hname
      unfold profileRow
      rw [mapGet_foldl_other _ "Name" _ _ hname, mapGet_mapSet, if_pos rfl]
      rfl
    · intro hmem hnodup
      have hrow : mapGet d.Key (profileRow showKeys sprint cfg p)
          = some (listedValue showKeys sprint cfg p d) :=
        mapGet_foldl_mem _ d _ _ hmem hnodup
      constructor
      · intro hs hshow
        rw [hrow]
        simp [listedValue, hs, hshow, hiddenKeyString]
      · intro h
        rw [hrow]
        rcases h with h | h <;> simp [listedValue, h]

/-- C18 at two configurations whose API keys differ: the listings without
show-keys are equal, and the row of the profile holds the styled placeholder
under `apiKey` and the stored region under `region`; the listing of the
command is that one row, and with show-keys its `apiKey` is the stored key. -/
theorem C18_profile_list_hides_sensitive_values_witness :
    cmdList.Run false sampleSprint (sampleConfiguration "NRAK-one")
        = cmdList.Run false sampleSprint (sampleConfiguration "NRAK-two")
      ∧ mapGet "apiKey" (profileRow false sampleSprint (sampleConfiguration "NRAK-one") "default")
        = some "[<hidden>]"
      ∧ listedValue false sampleSprint (sampleConfiguration "NRAK-one") "default"
          { Key := "region", Sensitive := false } = "US"
      ∧ (∃ row, (cmdList.Run false sampleSprint (sampleConfiguration "NRAK-one"))[0]? = some row
          ∧ mapGet "apiKey" row = some (sampleSprint "<hidden>"))
      ∧ cmdList.Run false sampleSprint (sampleConfiguration "NRAK-one")
        = [[("Name", "default[ (default)]"), ("region", "US"), ("apiKey", "[<hidden>]")]]
      ∧ cmdList.Run true sampleSprint (sampleConfiguration "NRAK-one")
        = [[("Name", "default[ (default)]"), ("region", "US"), ("apiKey", "NRAK-one")]] :=
  ⟨(C18_profile_list_hides_sensitive_values sampleSprint (sampleConfiguration "NRAK-one")
      "default" { Key := "apiKey", Sensitive := true }).2.2.2.2.1
      (sampleConfiguration "NRAK-two")
      ⟨rfl, rfl, fun _ => rfl, fun _ d hd hs => by
        have hkey : d.Key = "region" := by
          simp only [sampleConfiguration, sampleFields, List.mem_cons, List.mem_singleton,
            List.not_mem_nil, or_false] at hd
          rcases hd with hd | hd
          · rw [hd]
          · rw [hd] at hs
            cases hs
        simp [sampleConfiguration, hkey]⟩,
    ((C18_profile_list_hides_sensitive_values sampleSprint (sampleConfiguration "NRAK-one")
      "default" { Key := "apiKey", Sensitive := true }).2.2.2.1
      (by decide) (by decide) false).trans
      (congrArg some ((C18_profile_list_hides_sensitive_values sampleSprint
        (sampleConfiguration "NRAK-one") "default"
        { Key := "apiKey", Sensitive := true }).1 rfl)),
    (C18_profile_list_hides_sensitive_values sampleSprint (sampleConfiguration "NRAK-one")
      "default" { Key := "region", Sensitive := false }).2.1 rfl false,
    (match (C18_profile_list_hides_sensitive_values sampleSprint
        (sampleConfiguration "NRAK-one") "default"
        { Key := "apiKey", Sensitive := true }).2.2.2.2.2.2 false 0 rfl with
      | ⟨row, hrow, _, hfield⟩ =>
        ⟨row, hrow, (hfield (by decide) (by decide)).1 rfl rfl⟩),
    by decide,
    by decide⟩

/-! ## Install command and test mode: theorems -/

/-- C19, the code on every input: the install command runs the same whether
the `testMode` flag is set or not; the installer it runs is in both cases the
one `NewRecipeInstaller` builds from the installer context and the client, and
the installer context does not hold the flag. -/
theorem C19_install_command_ignores_test_mode (flags : CommandFlags)
    (profile : Option Profile) (install : InstallerContext → Option InstallError) :
    Command.Run { flags with testMode := true } profile install
        = Command.Run { flags with testMode := false } profile install
      ∧ CommandFlags.installerContext { flags with testMode := true }
        = CommandFlags.installerContext { flags with testMode := false } :=
  ⟨rfl, rfl⟩

/-! ## Success link generator: further theorems -/

theorem append_ne_empty (a b : String) (ha : a ≠ "") : a ++ b ≠ "" := by
  intro h
  apply ha
  have hd := congrArg String.data h
  rw [String.data_append] at hd
  exact String.ext (List.append_eq_nil.mp hd).1

theorem explorerLink_shape (host encoded account : String) :
    "https://" ++ host ++ "/launcher/nr1-core.explorer?platform[filters]=" ++ encoded
        ++ "&platform[accountId]=" ++ account
      = "https://" ++ host ++ "/"
        ++ ("launcher/nr1-core.explorer?platform[filters]=" ++ encoded
          ++ "&platform[accountId]=" ++ account) := by
  have h : "/launcher/nr1-core.explorer?platform[filters]="
      = "/" ++ "launcher/nr1-core.explorer?platform[filters]=" := by decide
  rw [h]
  simp only [String.append_assoc]

theorem entityLink_shape (host guid : String) :
    "https://" ++ host ++ "/redirect/entity/" ++ guid
      = "https://" ++ host ++ "/" ++ ("redirect/entity/" ++ guid) := by
  have h : "/redirect/entity/" = "/" ++ "redirect/entity/" := by decide
  rw [h]
  simp only [String.append_assoc]

theorem https_ne_empty (host rest : String) : "https://" ++ host ++ "/" ++ rest ≠ "" := by
  simp only [String.append_assoc]
  exact append_ne_empty _ _ (by decide)

/-- C26: with an active profile, an install status that has an `INSTALLED`
recipe gets a URL that is `https://`, one of the three platform hostnames, `/`
and a rest, hence not empty, whatever the host entity GUID and the filter are
(empty included); and the URL returned is non-empty if and only if some recipe
is `INSTALLED`. -/
theorem C26_url_nonempty_iff_installed (p : Profile) (status : InstallStatus) :
    (status.hasAnyRecipeStatus RecipeStatusType.INSTALLED = true →
        ∃ rest, GenerateRedirectURL (some p) status
            = some ("https://" ++ nrPlatformHostname (some p) ++ "/" ++ rest)
          ∧ "https://" ++ nrPlatformHostname (some p) ++ "/" ++ rest ≠ "")
      ∧ (nrPlatformHostname (some p) = "staging-one.newrelic.com"
        ∨ nrPlatformHostname (some p) = "one.newrelic.com"
        ∨ nrPlatformHostname (some p) = "one.eu.newrelic.com")
      ∧ (∃ url, GenerateRedirectURL (some p) status = some url
          ∧ (url ≠ "" ↔ status.hasAnyRecipeStatus RecipeStatusType.INSTALLED = true)) := by
  have hshape : status.hasAnyRecipeStatus RecipeStatusType.INSTALLED = true →
      ∃ rest, GenerateRedirectURL (some p) status
        = some ("https://" ++ nrPlatformHostname (some p) ++ "/" ++ rest) := by
    intro hInstalled
    cases hType : equalFold status.successLinkConfig.LinkType "explorer" with
    | true =>
      exact ⟨_, by
        simp only [GenerateRedirectURL, hInstalled, hType, generateExplorerLink, if_true]
        rw [explorerLink_shape]⟩
    | false =>
      exact ⟨"redirect/entity/" ++ status.HostEntityGUID, by
        simp only [GenerateRedirectURL, hInstalled, hType, generateEntityLink, if_true,
          Bool.false_eq_true, if_false]
        rw [entityLink_shape]⟩
  refine ⟨fun h => ?_, ?_, ?_⟩
  · obtain ⟨rest, hrest⟩ := hshape h
    exact ⟨rest, hrest, https_ne_empty _ _⟩
  · simp only [nrPlatformHostname]
    split_ifs
    · exact Or.inl rfl
    · exact Or.inr (Or.inr rfl)
    · exact Or.inr (Or.inl rfl)
  · cases hInstalled : status.hasAnyRecipeStatus RecipeStatusType.INSTALLED with
    | true =>
      obtain ⟨rest, hrest⟩ := hshape hInstalled
      exact ⟨_, hrest, by simp [https_ne_empty]⟩
    | false =>
      exact ⟨"", by simp [GenerateRedirectURL, hInstalled], by simp⟩

/-- C26 at a run whose host entity GUID and filter are empty: the URL is the
bare entity link on the US host. -/
theorem C26_url_nonempty_iff_installed_witness :
    ∃ rest, GenerateRedirectURL (some (sampleProfile "US"))
        (sampleInstalledNoGUID { LinkType := "", Filter := "" })
        = some ("https://" ++ nrPlatformHostname (some (sampleProfile "US")) ++ "/" ++ rest)
      ∧ "https://" ++ nrPlatformHostname (some (sampleProfile "US")) ++ "/" ++ rest ≠ "" :=
  (C26_url_nonempty_iff_installed (sampleProfile "US")
    (sampleInstalledNoGUID { LinkType := "", Filter := "" })).1 (by decide)

/-! ## Events post command: further theorems -/

/-- C27, the code at the failing input: with an insert key in the profile the
payload `null` passes `json.Unmarshal` into the map, which it leaves nil, and
`CreateEvent` is called with it although it is no JSON object; a payload that
is a JSON array, string, number or boolean, or no JSON at all, is turned away
by the same decoding without a call, and so is any payload when the insert key
is empty. -/
theorem C27_post_calls_create_event_for_null :
    jsonUnmarshalMap "null" = Except.ok none
      ∧ cmdPost.Run 12345 "null" (some samplePostProfile) (fun _ _ => none)
        = some { createEventCalls := [(12345, "null")], outcome := CommandOutcome.returned }
      ∧ (cmdPost.Run 12345 "[]" (some samplePostProfile) (fun _ _ => none)).map
          (fun run => run.createEventCalls) = some []
      ∧ (cmdPost.Run 12345 "\"eventType\"" (some samplePostProfile) (fun _ _ => none)).map
          (fun run => run.createEventCalls) = some []
      ∧ (cmdPost.Run 12345 "42" (some samplePostProfile) (fun _ _ => none)).map
          (fun run => run.createEventCalls) = some []
      ∧ (cmdPost.Run 12345 "true" (some samplePostProfile) (fun _ _ => none)).map
          (fun run => run.createEventCalls) = some []
      ∧ (cmdPost.Run 12345 "not json" (some samplePostProfile) (fun _ _ => none)).map
          (fun run => run.createEventCalls) = some []
      ∧ cmdPost.Run 12345 "null" (some (sampleProfile "US")) (fun _ _ => none)
        = some { createEventCalls := []
                 outcome := CommandOutcome.fatal
                   "an Insights insert key is required, set one in your default profile or use the NEW_RELIC_INSIGHTS_INSERT_KEY environment variable" } := by
  refine ⟨rfl, rfl, rfl, rfl, rfl, rfl, rfl, rfl⟩

/-! ## Success link type and case folding: theorems -/

theorem equalFoldRunes_congr :
    ∀ (s t u : List Char), equalFoldRunes s t = true →
      equalFoldRunes s u = equalFoldRunes t u
  | [], [], _, _ => rfl
  | [], _ :: _, _, h => by simp [equalFoldRunes] at h
  | _ :: _, [], _, h => by simp [equalFoldRunes] at h
  | a :: s, b :: t, [], _ => by simp [equalFoldRunes]
  | a :: s, b :: t, c :: u, h => by
    simp only [equalFoldRunes, Bool.and_eq_true, beq_iff_eq] at h
    simp only [equalFoldRunes, h.1, equalFoldRunes_congr s t u h.2]

theorem explorer_ne_entity (host encoded account guid : String) :
    "https://" ++ host ++ "/launcher/nr1-core.explorer?platform[filters]=" ++ encoded
        ++ "&platform[accountId]=" ++ account
      ≠ "https://" ++ host ++ "/redirect/entity/" ++ guid := by
  intro h
  have hd := congrArg String.data h
  simp only [String.data_append, List.append_assoc] at hd
  have h2 := List.append_cancel_left (List.append_cancel_left hd)
  have h3 := congrArg (fun l => (l.drop 1).head?) h2
  simp at h3

theorem GenerateRedirectURL_withLinkType (profile : Option Profile) (status : InstallStatus)
    (hInstalled : status.hasAnyRecipeStatus RecipeStatusType.INSTALLED = true)
    (linkType : String) :
    GenerateRedirectURL profile (status.withLinkType linkType)
      = if equalFold linkType "explorer" then
          generateExplorerLink profile status.successLinkConfig.Filter
        else some (generateEntityLink profile status.HostEntityGUID) := by
  have h : (status.withLinkType linkType).hasAnyRecipeStatus RecipeStatusType.INSTALLED
      = true := hInstalled
  simp only [GenerateRedirectURL, h, if_true]
  rfl

/-- C28: for an install status with an `INSTALLED` recipe, the URL depends on
the success-link type only through its `EqualFold` comparison with `explorer`:
two link types that are equal under case folding (`explorer`, `EXPLORER` and
`Explorer` are) give the same result, and the result is the explorer link
exactly when the link type folds to `explorer`. -/
theorem C28_link_type_compared_by_case_folding (profile : Option Profile)
    (status : InstallStatus)
    (hInstalled : status.hasAnyRecipeStatus RecipeStatusType.INSTALLED = true) :
    (∀ t1 t2 : String, equalFold t1 t2 = true →
        GenerateRedirectURL profile (status.withLinkType t1)
          = GenerateRedirectURL profile (status.withLinkType t2))
      ∧ (∀ t1 t2 : String, equalFold t1 "explorer" = equalFold t2 "explorer" →
        GenerateRedirectURL profile (status.withLinkType t1)
          = GenerateRedirectURL profile (status.withLinkType t2))
      ∧ (GenerateRedirectURL profile status
          = generateExplorerLink profile status.successLinkConfig.Filter ↔
        equalFold status.successLinkConfig.LinkType "explorer" = true)
      ∧ equalFold "EXPLORER" "explorer" = true
      ∧ equalFold "Explorer" "explorer" = true
      ∧ equalFold "EXPLORER" "Explorer" = true := by
  have hsame : ∀ t1 t2 : String, equalFold t1 "explorer" = equalFold t2 "explorer" →
      GenerateRedirectURL profile (status.withLinkType t1)
        = GenerateRedirectURL profile (status.withLinkType t2) := by
    intro t1 t2 h
    rw [GenerateRedirectURL_withLinkType profile status hInstalled,
      GenerateRedirectURL_withLinkType profile status hInstalled, h]
  refine ⟨fun t1 t2 h => hsame t1 t2 (equalFoldRunes_congr _ _ _ h), hsame, ?_,
    by decide, by decide, by decide⟩
  cases hType : equalFold status.successLinkConfig.LinkType "explorer" with
  | true => simp [GenerateRedirectURL, hInstalled, hType]
  | false =>
    simp only [GenerateRedirectURL, hInstalled, hType, if_true, Bool.false_eq_true, if_false,
      iff_false]
    cases profile with
    | none => simp [generateExplorerLink]
    | some p =>
      simp only [generateExplorerLink, generateEntityLink, Option.some.injEq]
      exact fun h => explorer_ne_entity _ _ _ _ h.symm

/-- C28 at the link types `EXPLORER` and `Explorer` with a US profile: both
give the explorer link that `explorer` gives. -/
theorem C28_link_type_compared_by_case_folding_witness :
    GenerateRedirectURL (some (sampleProfile "US"))
        ((sampleInstalled { LinkType := "explorer", Filter := "myFilter" }).withLinkType
          "EXPLORER")
      = GenerateRedirectURL (some (sampleProfile "US"))
        ((sampleInstalled { LinkType := "explorer", Filter := "myFilter" }).withLinkType
          "Explorer") :=
  (C28_link_type_compared_by_case_folding (some (sampleProfile "US"))
    (sampleInstalled { LinkType := "explorer", Filter := "myFilter" }) (by decide)).1
    "EXPLORER" "Explorer" (by decide)

end NewRelicCLI
